import Mathlib

/-!
# Parallel bus interface dispatcher (`atari800/pbi.c`)

A shallow embedding of the bus dispatcher of `pbi.c`: the three address
windows D1, D6 and D7, the bank-select latch at `0xD1FF`, machine reset and
the snapshot functions.

* The file-scope variables of `pbi.c` (`D1FF_LATCH`, the function-static
  `fp_active`) and the globals it shares with the rest of the emulator
  (`PBI_D6D7ram`, `PBI_IRQ`, `MEMORY_mem`, `MEMORY_os`) are fields of an explicit
  state that every operation takes and returns.
* The peripheral modules (`pbi_mio.c`, `pbi_bb.c`, `pbi_xld.c`, `pbi_proto80.c`,
  `af80.c`, `bit3.c`) are not part of the embedding.  Their entry points are
  the fields of `Devices`; each one is an arbitrary function on the globals a
  device module can reach.  `D1FF_LATCH` and `fp_active` are `static`, so no
  device function can touch them.
* The preprocessor symbols tested with `#ifdef`, and the macro
  `PBI_NOT_HANDLED` of `pbi.h`, are the fields of `Build`.
* Every operation also returns the list of device entry points it invoked, in
  order, so that "no handler is invoked" can be stated.
-/

namespace PBI

/-! ## Data model -/

/-- Conversion of a C `int` to `UBYTE` (`unsigned char`). -/
def toUBYTE (r : Int) : Nat := (r % 256).toNat

/-- Preprocessor configuration of `pbi.c`: one flag per symbol tested with
`#ifdef`, and the value of the macro `PBI_NOT_HANDLED`, which `pbi.h` defines and
is a parameter here (the spec only requires that it is not a byte value).
`PBI_PROTO_80` is the symbol tested on line 212; it is a different symbol from
`PBI_PROTO80`, which guards every other PROTO80 branch. -/
structure Build where
  PBI_NOT_HANDLED : Int
  PBI_MIO : Bool
  PBI_BB : Bool
  PBI_XLD : Bool
  PBI_PROTO80 : Bool
  PBI_PROTO_80 : Bool
  AF80 : Bool
  BIT3 : Bool

/-- The globals a device module can read and write: its own state `dev`
(which holds its `..._enabled` flag), the memory arrays, the RAM-backed-window
flag and the IRQ aggregate.  Memory arrays are maps from index to byte. -/
structure Globals (δ : Type) where
  dev : δ
  MEMORY_mem : Nat → Nat
  MEMORY_os : Nat → Nat
  PBI_D6D7ram : Int
  PBI_IRQ : Int

/-- The whole state: the two variables private to `pbi.c` and the shared
globals. `D1FF_LATCH` is a `UBYTE`; `fp_active` is an `int` that only ever
holds `TRUE` or `FALSE`. -/
structure State (δ : Type) where
  D1FF_LATCH : Nat
  fp_active : Bool
  g : Globals δ

/-- One invocation of a device entry point, with its arguments. -/
inductive Call where
  | MIO_D1GetByte (addr : Nat) (no_side_effects : Int)
  | BB_D1GetByte (addr : Nat) (no_side_effects : Int)
  | XLD_D1GetByte (addr : Nat)
  | PROTO80_D1GetByte (addr : Nat) (no_side_effects : Int)
  | XLD_D1ffGetByte
  | MIO_D1PutByte (addr : Nat) (byte : Nat)
  | BB_D1PutByte (addr : Nat) (byte : Nat)
  | XLD_D1PutByte (addr : Nat) (byte : Nat)
  | PROTO80_D1PutByte (addr : Nat) (byte : Nat)
  | XLD_D1ffPutByte (byte : Nat)
  | PROTO80_D1ffPutByte (byte : Nat)
  | XLD_Reset
  | AF80_D6GetByte (addr : Nat) (no_side_effects : Int)
  | BIT3_D6GetByte (addr : Nat) (no_side_effects : Int)
  | MIO_D6GetByte (addr : Nat) (no_side_effects : Int)
  | BB_D6GetByte (addr : Nat) (no_side_effects : Int)
  | AF80_D6PutByte (addr : Nat) (byte : Nat)
  | BIT3_D6PutByte (addr : Nat) (byte : Nat)
  | MIO_D6PutByte (addr : Nat) (byte : Nat)
  | BB_D6PutByte (addr : Nat) (byte : Nat)
  deriving DecidableEq, Repr

/-- Whether a call is to a bank-select handler (`..._D1ffPutByte`). -/
def Call.isBankSelect : Call → Bool
  | .XLD_D1ffPutByte _ => true
  | .PROTO80_D1ffPutByte _ => true
  | _ => false

/-- Whether a call is to an IRQ-status handler (`..._D1ffGetByte`). -/
def Call.isIrqStatus : Call → Bool
  | .XLD_D1ffGetByte => true
  | _ => false

/-- The entry points of the device modules used by `pbi.c`.  A function that
returns a value returns it together with the globals as it leaves them. -/
structure Devices (δ : Type) where
  PBI_MIO_enabled : δ → Bool
  PBI_BB_enabled : δ → Bool
  PBI_XLD_enabled : δ → Bool
  PBI_PROTO80_enabled : δ → Bool
  AF80_enabled : δ → Bool
  BIT3_enabled : δ → Bool
  PBI_MIO_D1GetByte : Nat → Int → Globals δ → Int × Globals δ
  PBI_BB_D1GetByte : Nat → Int → Globals δ → Int × Globals δ
  PBI_XLD_D1GetByte : Nat → Globals δ → Int × Globals δ
  PBI_PROTO80_D1GetByte : Nat → Int → Globals δ → Int × Globals δ
  PBI_XLD_D1ffGetByte : Globals δ → Int × Globals δ
  PBI_MIO_D1PutByte : Nat → Nat → Globals δ → Globals δ
  PBI_BB_D1PutByte : Nat → Nat → Globals δ → Globals δ
  PBI_XLD_D1PutByte : Nat → Nat → Globals δ → Globals δ
  PBI_PROTO80_D1PutByte : Nat → Nat → Globals δ → Globals δ
  PBI_XLD_D1ffPutByte : Nat → Globals δ → Int × Globals δ
  PBI_PROTO80_D1ffPutByte : Nat → Globals δ → Int × Globals δ
  PBI_XLD_Reset : Globals δ → Globals δ
  AF80_D6GetByte : Nat → Int → Globals δ → Int × Globals δ
  BIT3_D6GetByte : Nat → Int → Globals δ → Int × Globals δ
  PBI_MIO_D6GetByte : Nat → Int → Globals δ → Int × Globals δ
  PBI_BB_D6GetByte : Nat → Int → Globals δ → Int × Globals δ
  AF80_D6PutByte : Nat → Nat → Globals δ → Globals δ
  BIT3_D6PutByte : Nat → Nat → Globals δ → Globals δ
  PBI_MIO_D6PutByte : Nat → Nat → Globals δ → Globals δ
  PBI_BB_D6PutByte : Nat → Nat → Globals δ → Globals δ

/-- Result of a read: the byte returned, the state afterwards and the device
entry points invoked. -/
structure Rd (δ : Type) where
  result : Nat
  st : State δ
  calls : List Call

/-- Result of a write or reset: the state afterwards and the device entry
points invoked. -/
structure Wr (δ : Type) where
  st : State δ
  calls : List Call

variable {δ : Type}

/-! ## Guards -/

/-- The guard `#ifdef PBI_MIO  if (PBI_MIO_enabled)`. -/
def mioOn (B : Build) (D : Devices δ) (g : Globals δ) : Bool :=
  B.PBI_MIO && D.PBI_MIO_enabled g.dev

/-- The guard `#ifdef PBI_BB  if (PBI_BB_enabled)`. -/
def bbOn (B : Build) (D : Devices δ) (g : Globals δ) : Bool :=
  B.PBI_BB && D.PBI_BB_enabled g.dev

/-- The guard `#ifdef PBI_XLD  if (PBI_XLD_enabled)`. -/
def xldOn (B : Build) (D : Devices δ) (g : Globals δ) : Bool :=
  B.PBI_XLD && D.PBI_XLD_enabled g.dev

/-- The guard `#ifdef PBI_PROTO80  if (PBI_PROTO80_enabled)`. -/
def proto80On (B : Build) (D : Devices δ) (g : Globals δ) : Bool :=
  B.PBI_PROTO80 && D.PBI_PROTO80_enabled g.dev

/-- The guard `#ifdef AF80  if (AF80_enabled)`. -/
def af80On (B : Build) (D : Devices δ) (g : Globals δ) : Bool :=
  B.AF80 && D.AF80_enabled g.dev

/-- The guard `#ifdef BIT3  if (BIT3_enabled)`. -/
def bit3On (B : Build) (D : Devices δ) (g : Globals δ) : Bool :=
  B.BIT3 && D.BIT3_enabled g.dev

/-- The 9 legal latch codes of the spec: "no bank" and eight one-hot codes. -/
def legalCodes : List Nat := [0, 1, 2, 4, 8, 0x10, 0x20, 0x40, 0x80]

/-- The validity test of line 222: true when `byte` is rejected. -/
def d1ffInvalid (byte : Nat) : Bool :=
  byte != 0 && byte != 1 && byte != 2 && byte != 4 && byte != 8 &&
    byte != 0x10 && byte != 0x20 && byte != 0x40 && byte != 0x80

/-- `memcpy(dst + d, src + s, n)` on arrays seen as maps: the new contents of
`dst`. -/
def memcpy (dst : Nat → Nat) (d : Nat) (src : Nat → Nat) (s n : Nat) : Nat → Nat :=
  fun a => if d ≤ a ∧ a < d + n then src (s + (a - d)) else dst a

/-! ## `PBI_D1GetByte` -/

/-- Intermediate state of the cooperative part of a D1 read: the local
`result`, the globals and the calls made so far. -/
structure Coop (δ : Type) where
  result : Int
  g : Globals δ
  calls : List Call

/-- Line 169: `if (PBI_XLD_enabled && !no_side_effects) result = PBI_XLD_D1GetByte(addr);` -/
def d1GetXLD (B : Build) (D : Devices δ) (addr : Nat) (no_side_effects : Int)
    (c : Coop δ) : Coop δ :=
  if xldOn B D c.g && no_side_effects == 0 then
    { result := (D.PBI_XLD_D1GetByte addr c.g).1
      g := (D.PBI_XLD_D1GetByte addr c.g).2
      calls := c.calls ++ [Call.XLD_D1GetByte addr] }
  else c

/-- Line 172: `if (result == PBI_NOT_HANDLED && PBI_PROTO80_enabled)
result = PBI_PROTO80_D1GetByte(addr, no_side_effects);` -/
def d1GetPROTO80 (B : Build) (D : Devices δ) (addr : Nat) (no_side_effects : Int)
    (c : Coop δ) : Coop δ :=
  if B.PBI_PROTO80 && (c.result == B.PBI_NOT_HANDLED && D.PBI_PROTO80_enabled c.g.dev) then
    { result := (D.PBI_PROTO80_D1GetByte addr no_side_effects c.g).1
      g := (D.PBI_PROTO80_D1GetByte addr no_side_effects c.g).2
      calls := c.calls ++ [Call.PROTO80_D1GetByte addr no_side_effects] }
  else c

/-- Lines 179-184: the IRQ status read at `0xD1FF`, `result = 0;
if (PBI_XLD_enabled && !no_side_effects) result |= PBI_XLD_D1ffGetByte();`. -/
def d1ffIrqStatus (B : Build) (D : Devices δ) (no_side_effects : Int)
    (c : Coop δ) : Coop δ :=
  if xldOn B D c.g && no_side_effects == 0 then
    { result := Int.lor 0 (D.PBI_XLD_D1ffGetByte c.g).1
      g := (D.PBI_XLD_D1ffGetByte c.g).2
      calls := c.calls ++ [Call.XLD_D1ffGetByte] }
  else { c with result := 0 }

/-- Lines 167-188 of `PBI_D1GetByte`: the cooperating devices. -/
def d1GetCoop (B : Build) (D : Devices δ) (addr : Nat) (no_side_effects : Int)
    (s : State δ) : Rd δ :=
  let c := d1GetPROTO80 B D addr no_side_effects
    (d1GetXLD B D addr no_side_effects { result := 0xff, g := s.g, calls := [] })
  if c.result != B.PBI_NOT_HANDLED then
    { result := toUBYTE c.result, st := { s with g := c.g }, calls := c.calls }
  else if addr == 0xd1ff then
    let i := d1ffIrqStatus B D no_side_effects c
    { result := toUBYTE i.result, st := { s with g := i.g }, calls := i.calls }
  else
    { result := toUBYTE c.result, st := { s with g := c.g }, calls := c.calls }

/-- `UBYTE PBI_D1GetByte(UWORD addr, int no_side_effects)`. -/
def PBI_D1GetByte (B : Build) (D : Devices δ) (addr : Nat) (no_side_effects : Int)
    (s : State δ) : Rd δ :=
  let addr := addr % 65536
  if mioOn B D s.g then
    { result := toUBYTE (D.PBI_MIO_D1GetByte addr no_side_effects s.g).1
      st := { s with g := (D.PBI_MIO_D1GetByte addr no_side_effects s.g).2 }
      calls := [Call.MIO_D1GetByte addr no_side_effects] }
  else if bbOn B D s.g then
    { result := toUBYTE (D.PBI_BB_D1GetByte addr no_side_effects s.g).1
      st := { s with g := (D.PBI_BB_D1GetByte addr no_side_effects s.g).2 }
      calls := [Call.BB_D1GetByte addr no_side_effects] }
  else d1GetCoop B D addr no_side_effects s

/-! ## `PBI_D1PutByte` -/

/-- Outcome of offering a bank-select value to the cooperating devices. -/
structure Offer (δ : Type) where
  handled : Bool
  g : Globals δ
  calls : List Call

/-- Line 229: `PBI_XLD_enabled && PBI_XLD_D1ffPutByte(byte) != PBI_NOT_HANDLED`. -/
def offerXLD (B : Build) (D : Devices δ) (byte : Nat) (g : Globals δ) : Offer δ :=
  if xldOn B D g then
    { handled := (D.PBI_XLD_D1ffPutByte byte g).1 != B.PBI_NOT_HANDLED
      g := (D.PBI_XLD_D1ffPutByte byte g).2
      calls := [Call.XLD_D1ffPutByte byte] }
  else { handled := false, g := g, calls := [] }

/-- Line 236: `PBI_PROTO80_enabled && PBI_PROTO80_D1ffPutByte(byte) != PBI_NOT_HANDLED`. -/
def offerPROTO80 (B : Build) (D : Devices δ) (byte : Nat) (g : Globals δ) : Offer δ :=
  if proto80On B D g then
    { handled := (D.PBI_PROTO80_D1ffPutByte byte g).1 != B.PBI_NOT_HANDLED
      g := (D.PBI_PROTO80_D1ffPutByte byte g).2
      calls := [Call.PROTO80_D1ffPutByte byte] }
  else { handled := false, g := g, calls := [] }

/-- Lines 228-241: the value is offered to XLD, then (when XLD did not handle
it) to PROTO80. -/
def bankSelect (B : Build) (D : Devices δ) (byte : Nat) (g : Globals δ) : Offer δ :=
  let x := offerXLD B D byte g
  if x.handled then x
  else
    let p := offerPROTO80 B D byte x.g
    { handled := p.handled, g := p.g, calls := x.calls ++ p.calls }

/-- Lines 244-248: reactivate the floating point ROM. -/
def reactivateFp (fp_active : Bool) (g : Globals δ) : Globals δ :=
  if !fp_active then
    { g with MEMORY_mem := memcpy g.MEMORY_mem 0xd800 g.MEMORY_os 0x1800 0x800 }
  else g

/-- Lines 217-250: a write to `0xD1FF` when no exclusive device is enabled. -/
def d1ffPut (B : Build) (D : Devices δ) (byte : Nat) (s : State δ) : Wr δ :=
  if s.D1FF_LATCH != byte then
    if d1ffInvalid byte then { st := s, calls := [] }
    else
      let o := bankSelect B D byte s.g
      if o.handled then
        { st := { D1FF_LATCH := byte, fp_active := false, g := o.g }, calls := o.calls }
      else
        { st := { D1FF_LATCH := byte, fp_active := true, g := reactivateFp s.fp_active o.g }
          calls := o.calls }
  else { st := s, calls := [] }

/-- Lines 207-216: a write to a D1 address other than `0xD1FF` when no
exclusive device is enabled. -/
def d1PutOther (B : Build) (D : Devices δ) (addr byte : Nat) (s : State δ) : Wr δ :=
  let g1 := if xldOn B D s.g then D.PBI_XLD_D1PutByte addr byte s.g else s.g
  let c1 := if xldOn B D s.g then [Call.XLD_D1PutByte addr byte] else []
  let on2 := B.PBI_PROTO_80 && D.PBI_PROTO80_enabled g1.dev
  let g2 := if on2 then D.PBI_PROTO80_D1PutByte addr byte g1 else g1
  let c2 := if on2 then [Call.PROTO80_D1PutByte addr byte] else []
  { st := { s with g := g2 }, calls := c1 ++ c2 }

/-- `void PBI_D1PutByte(UWORD addr, UBYTE byte)`. -/
def PBI_D1PutByte (B : Build) (D : Devices δ) (addr byte : Nat) (s : State δ) : Wr δ :=
  let addr := addr % 65536
  let byte := byte % 256
  if mioOn B D s.g then
    { st := { s with g := D.PBI_MIO_D1PutByte addr byte s.g }
      calls := [Call.MIO_D1PutByte addr byte] }
  else if bbOn B D s.g then
    { st := { s with g := D.PBI_BB_D1PutByte addr byte s.g }
      calls := [Call.BB_D1PutByte addr byte] }
  else if addr != 0xd1ff then d1PutOther B D addr byte s
  else d1ffPut B D byte s

/-! ## `PBI_Reset` -/

/-- `void PBI_Reset(void)`. -/
def PBI_Reset (B : Build) (D : Devices δ) (s : State δ) : Wr δ :=
  let w := PBI_D1PutByte B D 0xd1ff 0 s
  let g1 := if xldOn B D w.st.g then D.PBI_XLD_Reset w.st.g else w.st.g
  let c1 := if xldOn B D w.st.g then [Call.XLD_Reset] else []
  { st := { w.st with g := { g1 with PBI_IRQ := 0 } }, calls := w.calls ++ c1 }

/-! ## The D6 and D7 windows -/

/-- `UBYTE PBI_D6GetByte(UWORD addr, int no_side_effects)`. -/
def PBI_D6GetByte (B : Build) (D : Devices δ) (addr : Nat) (no_side_effects : Int)
    (s : State δ) : Rd δ :=
  let addr := addr % 65536
  if af80On B D s.g then
    { result := toUBYTE (D.AF80_D6GetByte addr no_side_effects s.g).1
      st := { s with g := (D.AF80_D6GetByte addr no_side_effects s.g).2 }
      calls := [Call.AF80_D6GetByte addr no_side_effects] }
  else if bit3On B D s.g then
    { result := toUBYTE (D.BIT3_D6GetByte addr no_side_effects s.g).1
      st := { s with g := (D.BIT3_D6GetByte addr no_side_effects s.g).2 }
      calls := [Call.BIT3_D6GetByte addr no_side_effects] }
  else if mioOn B D s.g then
    { result := toUBYTE (D.PBI_MIO_D6GetByte addr no_side_effects s.g).1
      st := { s with g := (D.PBI_MIO_D6GetByte addr no_side_effects s.g).2 }
      calls := [Call.MIO_D6GetByte addr no_side_effects] }
  else if bbOn B D s.g then
    { result := toUBYTE (D.PBI_BB_D6GetByte addr no_side_effects s.g).1
      st := { s with g := (D.PBI_BB_D6GetByte addr no_side_effects s.g).2 }
      calls := [Call.BB_D6GetByte addr no_side_effects] }
  else if s.g.PBI_D6D7ram != 0 then
    { result := s.g.MEMORY_mem addr, st := s, calls := [] }
  else { result := 0xff, st := s, calls := [] }

/-- `void PBI_D6PutByte(UWORD addr, UBYTE byte)`. -/
def PBI_D6PutByte (B : Build) (D : Devices δ) (addr byte : Nat) (s : State δ) : Wr δ :=
  let addr := addr % 65536
  let byte := byte % 256
  if af80On B D s.g then
    { st := { s with g := D.AF80_D6PutByte addr byte s.g }
      calls := [Call.AF80_D6PutByte addr byte] }
  else if bit3On B D s.g then
    { st := { s with g := D.BIT3_D6PutByte addr byte s.g }
      calls := [Call.BIT3_D6PutByte addr byte] }
  else if mioOn B D s.g then
    { st := { s with g := D.PBI_MIO_D6PutByte addr byte s.g }
      calls := [Call.MIO_D6PutByte addr byte] }
  else if bbOn B D s.g then
    { st := { s with g := D.PBI_BB_D6PutByte addr byte s.g }
      calls := [Call.BB_D6PutByte addr byte] }
  else if s.g.PBI_D6D7ram != 0 then
    { st := { s with g := { s.g with MEMORY_mem := Function.update s.g.MEMORY_mem addr byte } }
      calls := [] }
  else { st := s, calls := [] }

/-- `UBYTE PBI_D7GetByte(UWORD addr, int no_side_effects)`; the flag is not
used. -/
def PBI_D7GetByte (addr : Nat) (_no_side_effects : Int) (s : State δ) : Rd δ :=
  let addr := addr % 65536
  if s.g.PBI_D6D7ram != 0 then
    { result := s.g.MEMORY_mem addr, st := s, calls := [] }
  else { result := 0xff, st := s, calls := [] }

/-- `void PBI_D7PutByte(UWORD addr, UBYTE byte)`. -/
def PBI_D7PutByte (addr byte : Nat) (s : State δ) : Wr δ :=
  let addr := addr % 65536
  let byte := byte % 256
  if s.g.PBI_D6D7ram != 0 then
    { st := { s with g := { s.g with MEMORY_mem := Function.update s.g.MEMORY_mem addr byte } }
      calls := [] }
  else { st := s, calls := [] }

/-! ## Snapshots -/

/-- Modelled from the spec: the save primitives of the state-snapshot
subsystem (`statesav.c`, missing) write values verbatim; the stream is the list
of values written so far, one entry per value. -/
def StateSav_SaveUBYTE (v : Nat) (f : List Int) : List Int := f ++ [(v : Int)]

/-- Modelled from the spec: `StateSav_SaveINT` of the missing `statesav.c`,
which appends one `int` to the stream. -/
def StateSav_SaveINT (v : Int) (f : List Int) : List Int := f ++ [v]

/-- Modelled from the spec: `StateSav_ReadUBYTE` of the missing `statesav.c`;
it takes the next value of the stream as a `UBYTE`, and leaves the variable as
it is when the stream is exhausted. -/
def StateSav_ReadUBYTE (cur : Nat) (f : List Int) : Nat × List Int :=
  match f with
  | [] => (cur, [])
  | v :: rest => (toUBYTE v, rest)

/-- Modelled from the spec: `StateSav_ReadINT` of the missing `statesav.c`;
it takes the next value of the stream, and leaves the variable as it is when
the stream is exhausted. -/
def StateSav_ReadINT (cur : Int) (f : List Int) : Int × List Int :=
  match f with
  | [] => (cur, [])
  | v :: rest => (v, rest)

/-- `void PBI_StateSave(void)`: the stream after the three fields are
written. -/
def PBI_StateSave (s : State δ) (f : List Int) : List Int :=
  StateSav_SaveINT s.g.PBI_IRQ
    (StateSav_SaveINT s.g.PBI_D6D7ram (StateSav_SaveUBYTE s.D1FF_LATCH f))

/-- `void PBI_StateRead(void)`: the state after the three fields are read,
and the rest of the stream. -/
def PBI_StateRead (f : List Int) (s : State δ) : State δ × List Int :=
  let r1 := StateSav_ReadUBYTE s.D1FF_LATCH f
  let r2 := StateSav_ReadINT s.g.PBI_D6D7ram r1.2
  let r3 := StateSav_ReadINT s.g.PBI_IRQ r2.2
  ({ s with D1FF_LATCH := r1.1, g := { s.g with PBI_D6D7ram := r2.1, PBI_IRQ := r3.1 } }, r3.2)

/-! ## Predicates used by the statements -/

/-- No device that takes over the D1 window (MIO, BB) is enabled. -/
def noExclusiveD1 (B : Build) (D : Devices δ) (s : State δ) : Prop :=
  mioOn B D s.g = false ∧ bbOn B D s.g = false

/-- No cooperating D1 device (XLD, PROTO80) is enabled. -/
def noCooperatingD1 (B : Build) (D : Devices δ) (s : State δ) : Prop :=
  xldOn B D s.g = false ∧ proto80On B D s.g = false

/-- No device that claims the D6 window (AF80, BIT3, MIO, BB) is enabled. -/
def noD6Device (B : Build) (D : Devices δ) (s : State δ) : Prop :=
  af80On B D s.g = false ∧ bit3On B D s.g = false ∧
    mioOn B D s.g = false ∧ bbOn B D s.g = false

/-- The three address windows. -/
inductive Window where
  | D1
  | D6
  | D7
  deriving DecidableEq, Repr

/-- A read in the given window. -/
def readByte (B : Build) (D : Devices δ) (w : Window) (addr : Nat) (no_side_effects : Int)
    (s : State δ) : Rd δ :=
  match w with
  | .D1 => PBI_D1GetByte B D addr no_side_effects s
  | .D6 => PBI_D6GetByte B D addr no_side_effects s
  | .D7 => PBI_D7GetByte addr no_side_effects s

/-- A write in the given window. -/
def writeByte (B : Build) (D : Devices δ) (w : Window) (addr byte : Nat)
    (s : State δ) : Wr δ :=
  match w with
  | .D1 => PBI_D1PutByte B D addr byte s
  | .D6 => PBI_D6PutByte B D addr byte s
  | .D7 => PBI_D7PutByte addr byte s

/-- The states reachable from an initial state (latch 0) by dispatcher
operations: reads and writes in any window, reset, and the restoration of a
snapshot that `PBI_StateSave` wrote in a reachable state. -/
inductive Reachable (B : Build) (D : Devices δ) : State δ → Prop where
  | init (fp : Bool) (g : Globals δ) :
      Reachable B D { D1FF_LATCH := 0, fp_active := fp, g := g }
  | read (w : Window) (addr : Nat) (nse : Int) {s : State δ} :
      Reachable B D s → Reachable B D (readByte B D w addr nse s).st
  | write (w : Window) (addr byte : Nat) {s : State δ} :
      Reachable B D s → Reachable B D (writeByte B D w addr byte s).st
  | reset {s : State δ} : Reachable B D s → Reachable B D (PBI_Reset B D s).st
  | restore {saved s : State δ} :
      Reachable B D saved → Reachable B D s →
      Reachable B D (PBI_StateRead (PBI_StateSave saved []) s).1

/-- Whether every device entry point that `PBI_Reset` can invoke leaves the
RAM-backed-window flag as it found it. -/
def resetHandlersKeepRamFlag (D : Devices δ) : Prop :=
  (∀ a b g, (D.PBI_MIO_D1PutByte a b g).PBI_D6D7ram = g.PBI_D6D7ram) ∧
  (∀ a b g, (D.PBI_BB_D1PutByte a b g).PBI_D6D7ram = g.PBI_D6D7ram) ∧
  (∀ b g, (D.PBI_XLD_D1ffPutByte b g).2.PBI_D6D7ram = g.PBI_D6D7ram) ∧
  (∀ b g, (D.PBI_PROTO80_D1ffPutByte b g).2.PBI_D6D7ram = g.PBI_D6D7ram) ∧
  (∀ g, (D.PBI_XLD_Reset g).PBI_D6D7ram = g.PBI_D6D7ram)

/-- No device at all is enabled. -/
def noDevice (B : Build) (D : Devices δ) (s : State δ) : Prop :=
  noExclusiveD1 B D s ∧ noCooperatingD1 B D s ∧ af80On B D s.g = false ∧ bit3On B D s.g = false

/-- Every read entry point that takes the `no_side_effects` flag leaves the
globals (its own state included) as they are when the flag is set. -/
def suppressedReadsPure (D : Devices δ) : Prop :=
  ∀ (addr : Nat) (nse : Int) (g : Globals δ), nse ≠ 0 →
    (D.PBI_MIO_D1GetByte addr nse g).2 = g ∧ (D.PBI_BB_D1GetByte addr nse g).2 = g ∧
    (D.PBI_PROTO80_D1GetByte addr nse g).2 = g ∧ (D.AF80_D6GetByte addr nse g).2 = g ∧
    (D.BIT3_D6GetByte addr nse g).2 = g ∧ (D.PBI_MIO_D6GetByte addr nse g).2 = g ∧
    (D.PBI_BB_D6GetByte addr nse g).2 = g

/-- The state after `n` successive reads of the same address with the same
flag. -/
def readN (B : Build) (D : Devices δ) (w : Window) (addr : Nat) (nse : Int) :
    Nat → State δ → State δ
  | 0, s => s
  | n + 1, s => readN B D w addr nse n (readByte B D w addr nse s).st

/-! ## Concrete configurations -/

/-- A build with every device compiled in and `PBI_NOT_HANDLED` equal to `-1`;
the symbol `PBI_PROTO_80` is defined nowhere. -/
def fullBuild : Build :=
  { PBI_NOT_HANDLED := -1, PBI_MIO := true, PBI_BB := true, PBI_XLD := true,
    PBI_PROTO80 := true, PBI_PROTO_80 := false, AF80 := true, BIT3 := true }

/-- Devices of which none is enabled; every entry point leaves the globals
alone, and those that return a value return `-1`, except the IRQ status, 0. -/
def idleDevices (δ : Type) : Devices δ :=
  { PBI_MIO_enabled := fun _ => false
    PBI_BB_enabled := fun _ => false
    PBI_XLD_enabled := fun _ => false
    PBI_PROTO80_enabled := fun _ => false
    AF80_enabled := fun _ => false
    BIT3_enabled := fun _ => false
    PBI_MIO_D1GetByte := fun _ _ g => (-1, g)
    PBI_BB_D1GetByte := fun _ _ g => (-1, g)
    PBI_XLD_D1GetByte := fun _ g => (-1, g)
    PBI_PROTO80_D1GetByte := fun _ _ g => (-1, g)
    PBI_XLD_D1ffGetByte := fun g => (0, g)
    PBI_MIO_D1PutByte := fun _ _ g => g
    PBI_BB_D1PutByte := fun _ _ g => g
    PBI_XLD_D1PutByte := fun _ _ g => g
    PBI_PROTO80_D1PutByte := fun _ _ g => g
    PBI_XLD_D1ffPutByte := fun _ g => (-1, g)
    PBI_PROTO80_D1ffPutByte := fun _ g => (-1, g)
    PBI_XLD_Reset := fun g => g
    AF80_D6GetByte := fun _ _ g => (-1, g)
    BIT3_D6GetByte := fun _ _ g => (-1, g)
    PBI_MIO_D6GetByte := fun _ _ g => (-1, g)
    PBI_BB_D6GetByte := fun _ _ g => (-1, g)
    AF80_D6PutByte := fun _ _ g => g
    BIT3_D6PutByte := fun _ _ g => g
    PBI_MIO_D6PutByte := fun _ _ g => g
    PBI_BB_D6PutByte := fun _ _ g => g }

/-- Globals with zeroed RAM, a ROM image whose byte at index `i` is
`(i + 7) % 256`, the RAM-backed flag `FALSE` and no IRQ. -/
def globals0 : Globals Unit :=
  { dev := (), MEMORY_mem := fun _ => 0, MEMORY_os := fun i => (i + 7) % 256,
    PBI_D6D7ram := 0, PBI_IRQ := 0 }

/-- The state at start-up: `D1FF_LATCH = 0`, `fp_active = TRUE`. -/
def state0 : State Unit := { D1FF_LATCH := 0, fp_active := true, g := globals0 }

/-- XLD and PROTO80 both enabled: XLD answers "not handled" to every
bank-select value, PROTO80 handles every one. -/
def twoCoopDevices : Devices Unit :=
  { idleDevices Unit with
    PBI_XLD_enabled := fun _ => true
    PBI_PROTO80_enabled := fun _ => true
    PBI_PROTO80_D1ffPutByte := fun _ g => (0, g) }

/-- One cooperating device (XLD) enabled, which handles the bank-select value
4 only, by mapping its own ROM (here: the byte `0xAA` at `0xD800`). -/
def bankDevices : Devices Unit :=
  { idleDevices Unit with
    PBI_XLD_enabled := fun _ => true
    PBI_XLD_D1ffPutByte := fun b g =>
      if b = 4 then (0, { g with MEMORY_mem := Function.update g.MEMORY_mem 0xd800 0xAA })
      else (-1, g) }

/-- The exclusive device MIO enabled; its entry points do nothing. -/
def mioDevices : Devices Unit :=
  { idleDevices Unit with PBI_MIO_enabled := fun _ => true }

/-- A state with latch 4 and the ROM-shadow flag false, as left by a handled
bank-select of 4. -/
def state4 : State Unit := { D1FF_LATCH := 4, fp_active := false, g := globals0 }

/-- Scenario C: two cooperating devices, neither handling `0xD1FF` as an
ordinary read; XLD reports the IRQ status `0x01`, PROTO80 (which has no
IRQ-status entry point) contributes nothing. -/
def irqDevices : Devices Unit :=
  { idleDevices Unit with
    PBI_XLD_enabled := fun _ => true
    PBI_PROTO80_enabled := fun _ => true
    PBI_XLD_D1ffGetByte := fun g => (0x01, g) }

/-- The exclusive device MIO enabled, with a counter as its state: a D1 read
returns the counter, and increments it unless side effects are suppressed. -/
def countingDevices : Devices Nat :=
  { idleDevices Nat with
    PBI_MIO_enabled := fun _ => true
    PBI_MIO_D1GetByte := fun _ nse g =>
      if nse = 0 then ((g.dev : Int), { g with dev := g.dev + 1 }) else ((g.dev : Int), g) }

/-- A start-up state for `countingDevices`, the counter at 5. -/
def stateCount : State Nat :=
  { D1FF_LATCH := 0, fp_active := true
    g := { dev := 5, MEMORY_mem := fun _ => 0, MEMORY_os := fun _ => 0,
           PBI_D6D7ram := 0, PBI_IRQ := 0 } }

/-- Both exclusive D1 devices enabled, with cooperating devices enabled
behind them; MIO answers reads with `0x5A`, BB with `0x77`. -/
def exclusiveDevices : Devices Unit :=
  { idleDevices Unit with
    PBI_MIO_enabled := fun _ => true
    PBI_BB_enabled := fun _ => true
    PBI_XLD_enabled := fun _ => true
    PBI_PROTO80_enabled := fun _ => true
    PBI_MIO_D1GetByte := fun _ _ g => (0x5A, g)
    PBI_BB_D1GetByte := fun _ _ g => (0x77, g) }

/-- PROTO80 is the only device enabled; it answers every D1 read with
`0x42` and handles every bank-select value. -/
def proto80Devices : Devices Unit :=
  { idleDevices Unit with
    PBI_PROTO80_enabled := fun _ => true
    PBI_PROTO80_D1GetByte := fun _ _ g => (0x42, g)
    PBI_PROTO80_D1ffPutByte := fun _ g => (0, g) }

/-- XLD and PROTO80 enabled: XLD answers "not handled" to every read, PROTO80
answers `0x42`. -/
def xldDeclinesDevices : Devices Unit :=
  { proto80Devices with PBI_XLD_enabled := fun _ => true }

/-- AF80, which claims the D6 window, enabled; it answers reads with
`0x33`. -/
def af80Devices : Devices Unit :=
  { idleDevices Unit with
    AF80_enabled := fun _ => true
    AF80_D6GetByte := fun _ _ g => (0x33, g) }

/-- A state with the RAM-backed flag set and the byte `0x5A` in every RAM
cell. -/
def stateRam : State Unit :=
  { D1FF_LATCH := 0, fp_active := true
    g := { globals0 with MEMORY_mem := fun _ => 0x5A, PBI_D6D7ram := 1 } }

/-! ## `PBI_ReadConfig` -/

/-- The devices with a `..._ReadConfig` entry point. -/
inductive CfgDevice where
  | XLD
  | MIO
  | BB
  | PROTO80
  deriving DecidableEq, Repr

/-- One invocation of a `..._ReadConfig` entry point, with the `int` it
returned. -/
structure CfgCall where
  device : CfgDevice
  answer : Int
  deriving DecidableEq, Repr

/-- The `..._ReadConfig(char *string, char *ptr)` entry points of the device
modules; each returns an `int` and the globals as it leaves them. -/
structure ConfigHandlers (δ : Type) where
  PBI_XLD_ReadConfig : String → String → Globals δ → Int × Globals δ
  PBI_MIO_ReadConfig : String → String → Globals δ → Int × Globals δ
  PBI_BB_ReadConfig : String → String → Globals δ → Int × Globals δ
  PBI_PROTO80_ReadConfig : String → String → Globals δ → Int × Globals δ

/-- Progress through the `if ... else if ...` chain of `PBI_ReadConfig`:
whether a branch has been taken, the globals, and the calls made so far. -/
structure Cfg (δ : Type) where
  result : Bool
  g : Globals δ
  calls : List CfgCall

/-- One link `#ifdef X  else if (X_ReadConfig(string, ptr)) { }  #endif` of
the chain: skipped when an earlier branch was taken or `X` is not defined. -/
def cfgLink (defined : Bool) (d : CfgDevice) (h : Globals δ → Int × Globals δ)
    (c : Cfg δ) : Cfg δ :=
  if c.result then c
  else if defined then
    { result := (h c.g).1 != 0, g := (h c.g).2
      calls := c.calls ++ [{ device := d, answer := (h c.g).1 }] }
  else c

/-- `int PBI_ReadConfig(char *string, char *ptr)`: `result` is `TRUE` when a
branch was taken (line 128) and `FALSE` when the final `else` is reached
(line 127). -/
def PBI_ReadConfig (B : Build) (C : ConfigHandlers δ) (string ptr : String)
    (g : Globals δ) : Cfg δ :=
  cfgLink B.PBI_PROTO80 CfgDevice.PROTO80 (C.PBI_PROTO80_ReadConfig string ptr)
    (cfgLink B.PBI_BB CfgDevice.BB (C.PBI_BB_ReadConfig string ptr)
      (cfgLink B.PBI_MIO CfgDevice.MIO (C.PBI_MIO_ReadConfig string ptr)
        (cfgLink B.PBI_XLD CfgDevice.XLD (C.PBI_XLD_ReadConfig string ptr)
          { result := false, g := g, calls := [] })))

/-- The devices consulted by `PBI_ReadConfig` in the given build, in the
order of the chain. -/
def cfgPriority (B : Build) : List CfgDevice :=
  (if B.PBI_XLD then [CfgDevice.XLD] else []) ++
  (if B.PBI_MIO then [CfgDevice.MIO] else []) ++
  (if B.PBI_BB then [CfgDevice.BB] else []) ++
  (if B.PBI_PROTO80 then [CfgDevice.PROTO80] else [])

/-- Configuration handlers of which MIO recognises the key `"MIO_ROM"` and BB
the keys `"MIO_ROM"` and `"BB_ROM"`. -/
def keyHandlers : ConfigHandlers Unit :=
  { PBI_XLD_ReadConfig := fun _ _ g => (0, g)
    PBI_MIO_ReadConfig := fun k _ g => (if k = "MIO_ROM" then 1 else 0, g)
    PBI_BB_ReadConfig := fun k _ g => (if k = "MIO_ROM" ∨ k = "BB_ROM" then 1 else 0, g)
    PBI_PROTO80_ReadConfig := fun _ _ g => (0, g) }

/-- Invariant of the chain of `PBI_ReadConfig` after the links for the devices
`pre`: a branch has been taken exactly when a consulted handler answered
non-zero; every handler consulted before the last one answered 0; the devices
consulted are a prefix of `pre`, and all of `pre` when no branch was taken. -/
def cfgInv (pre : List CfgDevice) (c : Cfg δ) : Prop :=
  (c.result = true ↔ ∃ e ∈ c.calls, e.answer ≠ 0) ∧
    (∀ e ∈ c.calls.dropLast, e.answer = 0) ∧
    (c.calls.map CfgCall.device <+: pre) ∧
    (c.result = false → c.calls.map CfgCall.device = pre ∧ ∀ e ∈ c.calls, e.answer = 0)

/-- The four primitives of the state-snapshot subsystem (`statesav.c`) that
`pbi.c` calls, as parameters over any stream type `σ`: a save primitive gets
the value and the stream; a read primitive gets the current value of the
variable and the stream, and returns the value the variable has afterwards
and the stream. -/
structure StateSav (σ : Type) where
  SaveUBYTE : Nat → σ → σ
  SaveINT : Int → σ → σ
  ReadUBYTE : Nat → σ → Nat × σ
  ReadINT : Int → σ → Int × σ

/-- `void PBI_StateSave(void)` over arbitrary snapshot primitives. -/
def PBI_StateSaveWith {σ : Type} (P : StateSav σ) (s : State δ) (f : σ) : σ :=
  P.SaveINT s.g.PBI_IRQ (P.SaveINT s.g.PBI_D6D7ram (P.SaveUBYTE s.D1FF_LATCH f))

/-- `void PBI_StateRead(void)` over arbitrary snapshot primitives. -/
def PBI_StateReadWith {σ : Type} (P : StateSav σ) (f : σ) (s : State δ) : State δ × σ :=
  let r1 := P.ReadUBYTE s.D1FF_LATCH f
  let r2 := P.ReadINT s.g.PBI_D6D7ram r1.2
  let r3 := P.ReadINT s.g.PBI_IRQ r2.2
  ({ s with D1FF_LATCH := r1.1, g := { s.g with PBI_D6D7ram := r2.1, PBI_IRQ := r3.1 } }, r3.2)

/-- The verbatim primitives `StateSav_SaveUBYTE`, ... modelled from the
spec, as one value of `StateSav`. -/
def verbatimStateSav : StateSav (List Int) :=
  { SaveUBYTE := StateSav_SaveUBYTE, SaveINT := StateSav_SaveINT,
    ReadUBYTE := StateSav_ReadUBYTE, ReadINT := StateSav_ReadINT }

theorem d1ffInvalid_eq_true_iff (v : Nat) : d1ffInvalid v = true ↔ v ∉ legalCodes := by
  simp [d1ffInvalid, legalCodes, and_assoc]

theorem d1ffInvalid_eq_false_iff (v : Nat) : d1ffInvalid v = false ↔ v ∈ legalCodes := by
  rw [← Bool.not_eq_true, d1ffInvalid_eq_true_iff]; simp

theorem legalCodes_lt (v : Nat) (h : v ∈ legalCodes) : v < 256 := by
  simp [legalCodes] at h
  omega

theorem toUBYTE_natCast (v : Nat) (h : v < 256) : toUBYTE (v : Int) = v := by
  unfold toUBYTE
  omega

/-- A write to `0xD1FF` with no exclusive device enabled is `d1ffPut`. -/
theorem PBI_D1PutByte_d1ff (B : Build) (D : Devices δ) (s : State δ) (v : Nat)
    (hx : noExclusiveD1 B D s) (hv : v < 256) :
    PBI_D1PutByte B D 0xd1ff v s = d1ffPut B D v s := by
  obtain ⟨h1, h2⟩ := hx
  simp [PBI_D1PutByte, h1, h2, Nat.mod_eq_of_lt hv]

/-! ## The latch protocol -/

/-- C1: with no exclusive D1 device enabled, a write of a byte outside the 9
legal codes to `0xD1FF` returns the state it was given (latch, ROM-shadow flag,
RAM-backed flag, IRQ aggregate, memory and device state all unchanged) and
invokes no device entry point. -/
theorem illegal_latch_write_rejected (B : Build) (D : Devices δ) (s : State δ) (v : Nat)
    (hx : noExclusiveD1 B D s) (hv : v < 256) (hill : v ∉ legalCodes) :
    PBI_D1PutByte B D 0xd1ff v s = { st := s, calls := [] } := by
  rw [PBI_D1PutByte_d1ff B D s v hx hv]
  have h := (d1ffInvalid_eq_true_iff v).2 hill
  unfold d1ffPut
  split <;> simp [h]

/-- Witness of C1: the illegal value 3 written at start-up with no device. -/
theorem illegal_latch_write_rejected_witness :
    PBI_D1PutByte fullBuild (idleDevices Unit) 0xd1ff 3 state0 = { st := state0, calls := [] } :=
  illegal_latch_write_rejected fullBuild (idleDevices Unit) state0 3 ⟨rfl, rfl⟩ (by decide) (by decide)

/-- C3: with no exclusive D1 device enabled, writing the current latch value
to `0xD1FF` returns the state it was given and invokes no device entry point. -/
theorem redundant_latch_write_noop (B : Build) (D : Devices δ) (s : State δ) (v : Nat)
    (hx : noExclusiveD1 B D s) (hv : v < 256) (hcur : v = s.D1FF_LATCH) :
    PBI_D1PutByte B D 0xd1ff v s = { st := s, calls := [] } := by
  rw [PBI_D1PutByte_d1ff B D s v hx hv]
  simp [d1ffPut, hcur]

/-- Witness of C3: writing 0 at start-up, where the latch is 0. -/
theorem redundant_latch_write_noop_witness :
    PBI_D1PutByte fullBuild (idleDevices Unit) 0xd1ff 0 state0 = { st := state0, calls := [] } :=
  redundant_latch_write_noop fullBuild (idleDevices Unit) state0 0 ⟨rfl, rfl⟩ (by decide) rfl

/-! ## The latch invariant -/

theorem PBI_D1GetByte_latch (B : Build) (D : Devices δ) (addr : Nat) (nse : Int) (s : State δ) :
    (PBI_D1GetByte B D addr nse s).st.D1FF_LATCH = s.D1FF_LATCH ∧
      (PBI_D1GetByte B D addr nse s).st.fp_active = s.fp_active := by
  unfold PBI_D1GetByte d1GetCoop
  dsimp only
  split_ifs <;> simp

theorem PBI_D6GetByte_latch (B : Build) (D : Devices δ) (addr : Nat) (nse : Int) (s : State δ) :
    (PBI_D6GetByte B D addr nse s).st.D1FF_LATCH = s.D1FF_LATCH ∧
      (PBI_D6GetByte B D addr nse s).st.fp_active = s.fp_active := by
  unfold PBI_D6GetByte
  dsimp only
  split_ifs <;> simp

theorem PBI_D7GetByte_st (addr : Nat) (nse : Int) (s : State δ) :
    (PBI_D7GetByte addr nse s).st = s := by
  unfold PBI_D7GetByte
  dsimp only
  split_ifs <;> rfl

theorem readByte_latch (B : Build) (D : Devices δ) (w : Window) (addr : Nat) (nse : Int)
    (s : State δ) :
    (readByte B D w addr nse s).st.D1FF_LATCH = s.D1FF_LATCH ∧
      (readByte B D w addr nse s).st.fp_active = s.fp_active := by
  cases w
  · exact PBI_D1GetByte_latch B D addr nse s
  · exact PBI_D6GetByte_latch B D addr nse s
  · simp [readByte, PBI_D7GetByte_st]

theorem d1ffPut_latch_legal (B : Build) (D : Devices δ) (byte : Nat) (s : State δ)
    (h : s.D1FF_LATCH ∈ legalCodes) : (d1ffPut B D byte s).st.D1FF_LATCH ∈ legalCodes := by
  unfold d1ffPut
  dsimp only
  split_ifs with h1 h2 h3
  · exact h
  · exact (d1ffInvalid_eq_false_iff byte).1 (by simpa using h2)
  · exact (d1ffInvalid_eq_false_iff byte).1 (by simpa using h2)
  · exact h

theorem PBI_D1PutByte_latch_legal (B : Build) (D : Devices δ) (addr byte : Nat) (s : State δ)
    (h : s.D1FF_LATCH ∈ legalCodes) :
    (PBI_D1PutByte B D addr byte s).st.D1FF_LATCH ∈ legalCodes := by
  unfold PBI_D1PutByte
  dsimp only
  split_ifs
  · exact h
  · exact h
  · exact h
  · exact d1ffPut_latch_legal B D _ s h

theorem PBI_D6PutByte_latch (B : Build) (D : Devices δ) (addr byte : Nat) (s : State δ) :
    (PBI_D6PutByte B D addr byte s).st.D1FF_LATCH = s.D1FF_LATCH ∧
      (PBI_D6PutByte B D addr byte s).st.fp_active = s.fp_active := by
  unfold PBI_D6PutByte
  dsimp only
  split_ifs <;> simp

theorem PBI_D7PutByte_latch (addr byte : Nat) (s : State δ) :
    (PBI_D7PutByte addr byte s).st.D1FF_LATCH = s.D1FF_LATCH ∧
      (PBI_D7PutByte addr byte s).st.fp_active = s.fp_active := by
  unfold PBI_D7PutByte
  dsimp only
  split_ifs <;> simp

theorem writeByte_latch_legal (B : Build) (D : Devices δ) (w : Window) (addr byte : Nat)
    (s : State δ) (h : s.D1FF_LATCH ∈ legalCodes) :
    (writeByte B D w addr byte s).st.D1FF_LATCH ∈ legalCodes := by
  cases w
  · exact PBI_D1PutByte_latch_legal B D addr byte s h
  · simpa [writeByte, (PBI_D6PutByte_latch B D addr byte s).1] using h
  · simpa [writeByte, (PBI_D7PutByte_latch addr byte s).1] using h

theorem PBI_Reset_latch (B : Build) (D : Devices δ) (s : State δ) :
    (PBI_Reset B D s).st.D1FF_LATCH = (PBI_D1PutByte B D 0xd1ff 0 s).st.D1FF_LATCH ∧
      (PBI_Reset B D s).st.fp_active = (PBI_D1PutByte B D 0xd1ff 0 s).st.fp_active := by
  simp [PBI_Reset]

theorem PBI_StateRead_StateSave_latch (saved s : State δ) (h : saved.D1FF_LATCH < 256) :
    (PBI_StateRead (PBI_StateSave saved []) s).1.D1FF_LATCH = saved.D1FF_LATCH := by
  simp [PBI_StateRead, PBI_StateSave, StateSav_SaveINT, StateSav_SaveUBYTE,
    StateSav_ReadUBYTE, toUBYTE_natCast _ h]

/-- C2: in every state reachable from a state with latch 0 by reads and writes
in any window, resets and restorations of saved snapshots, for every build and
every behaviour of the devices, the latch is one of the 9 legal codes. -/
theorem reachable_latch_legal (B : Build) (D : Devices δ) (s : State δ)
    (h : Reachable B D s) : s.D1FF_LATCH ∈ legalCodes := by
  induction h with
  | init fp g => simp [legalCodes]
  | read w addr nse _ ih => rw [(readByte_latch B D w addr nse _).1]; exact ih
  | write w addr byte _ ih => exact writeByte_latch_legal B D w addr byte _ ih
  | reset _ ih =>
      rw [(PBI_Reset_latch B D _).1]
      exact PBI_D1PutByte_latch_legal B D _ _ _ ih
  | restore _ _ ihsaved _ =>
      rw [PBI_StateRead_StateSave_latch _ _ (legalCodes_lt _ ihsaved)]
      exact ihsaved

/-- Witness of C2: the state after writing `0x10` to the latch at start-up is
reachable, and its latch is legal. -/
theorem reachable_latch_legal_witness :
    (writeByte fullBuild (idleDevices Unit) Window.D1 0xd1ff 0x10 state0).st.D1FF_LATCH ∈ legalCodes :=
  reachable_latch_legal fullBuild (idleDevices Unit) _
    (Reachable.write Window.D1 0xd1ff 0x10 (Reachable.init true globals0))

/-! ## Bank selection -/

theorem d1ffPut_legal (B : Build) (D : Devices δ) (s : State δ) (v : Nat)
    (hv : v ∈ legalCodes) (hne : v ≠ s.D1FF_LATCH) :
    d1ffPut B D v s =
      if (bankSelect B D v s.g).handled then
        { st := { D1FF_LATCH := v, fp_active := false, g := (bankSelect B D v s.g).g }
          calls := (bankSelect B D v s.g).calls }
      else
        { st := { D1FF_LATCH := v, fp_active := true
                  g := reactivateFp s.fp_active (bankSelect B D v s.g).g }
          calls := (bankSelect B D v s.g).calls } := by
  have h1 : (s.D1FF_LATCH != v) = true := by simpa using fun h => hne h.symm
  have h2 := (d1ffInvalid_eq_false_iff v).2 hv
  simp [d1ffPut, h1, h2]

/-- C4 fails as stated: with XLD and PROTO80 both enabled and XLD answering
"not handled", the legal write of 1 over latch 0 invokes two bank-select
handlers, XLD's and then PROTO80's. -/
theorem bank_select_invokes_two_handlers :
    noExclusiveD1 fullBuild twoCoopDevices state0 ∧ 1 ∈ legalCodes ∧ 1 ≠ state0.D1FF_LATCH ∧
      (PBI_D1PutByte fullBuild twoCoopDevices 0xd1ff 1 state0).calls =
        [Call.XLD_D1ffPutByte 1, Call.PROTO80_D1ffPutByte 1] ∧
      ¬ ((PBI_D1PutByte fullBuild twoCoopDevices 0xd1ff 1 state0).calls.filter
          Call.isBankSelect).length ≤ 1 := by
  refine ⟨⟨rfl, rfl⟩, by decide, by decide, rfl, by decide⟩

/-- C4, amended: for a legal value different from the latch, with no
exclusive D1 device enabled, the bank-select handlers are invoked in priority
order, XLD first (when enabled), and PROTO80 (when enabled) only if XLD is
disabled or answered "not handled"; no handler is invoked after one that
reports the value as handled. -/
theorem bank_select_offer_order (B : Build) (D : Devices δ) (s : State δ) (v : Nat)
    (hx : noExclusiveD1 B D s) (hv : v ∈ legalCodes) (hne : v ≠ s.D1FF_LATCH) :
    (xldOn B D s.g = true → (D.PBI_XLD_D1ffPutByte v s.g).1 ≠ B.PBI_NOT_HANDLED →
        (PBI_D1PutByte B D 0xd1ff v s).calls = [Call.XLD_D1ffPutByte v]) ∧
      (xldOn B D s.g = true → (D.PBI_XLD_D1ffPutByte v s.g).1 = B.PBI_NOT_HANDLED →
        (PBI_D1PutByte B D 0xd1ff v s).calls =
          Call.XLD_D1ffPutByte v ::
            (if proto80On B D (D.PBI_XLD_D1ffPutByte v s.g).2 then [Call.PROTO80_D1ffPutByte v]
             else [])) ∧
      (xldOn B D s.g = false →
        (PBI_D1PutByte B D 0xd1ff v s).calls =
          if proto80On B D s.g then [Call.PROTO80_D1ffPutByte v] else []) := by
  rw [PBI_D1PutByte_d1ff B D s v hx (legalCodes_lt v hv), d1ffPut_legal B D s v hv hne]
  refine ⟨fun h1 h2 => ?_, fun h1 h2 => ?_, fun h1 => ?_⟩
  · simp [bankSelect, offerXLD, h1, h2]
  · simp only [bankSelect, offerXLD, offerPROTO80, h1, h2]
    split_ifs <;> simp_all
  · simp only [bankSelect, offerXLD, offerPROTO80, h1]
    split_ifs <;> simp_all

/-- Witness of the amended C4: XLD declines, PROTO80 is then offered the
value. -/
theorem bank_select_offer_order_witness :
    (PBI_D1PutByte fullBuild twoCoopDevices 0xd1ff 2 state0).calls =
      Call.XLD_D1ffPutByte 2 ::
        (if proto80On fullBuild twoCoopDevices (twoCoopDevices.PBI_XLD_D1ffPutByte 2 state0.g).2
         then [Call.PROTO80_D1ffPutByte 2] else []) :=
  (bank_select_offer_order fullBuild twoCoopDevices state0 2 ⟨rfl, rfl⟩ (by decide)
    (by decide)).2.1 rfl rfl

theorem bankSelect_noCooperating (B : Build) (D : Devices δ) (s : State δ) (v : Nat)
    (hc : noCooperatingD1 B D s) :
    bankSelect B D v s.g = { handled := false, g := s.g, calls := [] } := by
  obtain ⟨h1, h2⟩ := hc
  simp [bankSelect, offerXLD, offerPROTO80, h1, h2]

/-- What "a cooperating device reports the bank-select as handled" means for
`bankSelect`: XLD is enabled and its handler does not answer
`PBI_NOT_HANDLED`, or XLD is disabled or declines and PROTO80, enabled, does
not answer `PBI_NOT_HANDLED`. -/
theorem bankSelect_handled_iff (B : Build) (D : Devices δ) (v : Nat) (g : Globals δ) :
    (bankSelect B D v g).handled = true ↔
      (xldOn B D g = true ∧ (D.PBI_XLD_D1ffPutByte v g).1 ≠ B.PBI_NOT_HANDLED) ∨
      (xldOn B D g = true ∧ (D.PBI_XLD_D1ffPutByte v g).1 = B.PBI_NOT_HANDLED ∧
        proto80On B D (D.PBI_XLD_D1ffPutByte v g).2 = true ∧
        (D.PBI_PROTO80_D1ffPutByte v (D.PBI_XLD_D1ffPutByte v g).2).1 ≠ B.PBI_NOT_HANDLED) ∨
      (xldOn B D g = false ∧ proto80On B D g = true ∧
        (D.PBI_PROTO80_D1ffPutByte v g).1 ≠ B.PBI_NOT_HANDLED) := by
  unfold bankSelect offerXLD offerPROTO80
  by_cases h1 : xldOn B D g = true
  · by_cases h2 : (D.PBI_XLD_D1ffPutByte v g).1 = B.PBI_NOT_HANDLED
    · by_cases h3 : proto80On B D (D.PBI_XLD_D1ffPutByte v g).2 = true <;> simp [h1, h2, h3]
    · simp [h1, h2]
  · have h1f : xldOn B D g = false := by simpa using h1
    by_cases h3 : proto80On B D g = true <;> simp [h1f, h3]

theorem memcpy_inside (dst src : Nat → Nat) (d s n i : Nat) (h : i < n) :
    memcpy dst d src s n (d + i) = src (s + i) := by
  simp [memcpy, h]

theorem memcpy_outside (dst src : Nat → Nat) (d s n a : Nat) (h : a < d ∨ d + n ≤ a) :
    memcpy dst d src s n a = dst a := by
  unfold memcpy
  rw [if_neg]
  omega

/-- C5: for a legal value `v` different from the latch, with no exclusive D1
device enabled and no cooperating device reporting the bank-select as handled,
the write stores `v` in the latch and leaves the ROM-shadow flag true. With `g`
the globals as the consulted handlers left them (the globals before the write
when no cooperating device is enabled): if the flag was false, the `0x800`
bytes at `0xD800` of `MEMORY_mem` become those at `0x1800` of `MEMORY_os`; if
the flag was true nothing is copied; in both cases no cell outside
`0xD800..0xDFFF` and nothing else in the globals is changed by the write, so
those cells keep the value they had before the write whenever the handlers
left memory alone. -/
theorem unhandled_bank_select (B : Build) (D : Devices δ) (s : State δ) (v : Nat)
    (hx : noExclusiveD1 B D s) (hv : v ∈ legalCodes) (hne : v ≠ s.D1FF_LATCH)
    (hnh : (bankSelect B D v s.g).handled = false) :
    (PBI_D1PutByte B D 0xd1ff v s).st.D1FF_LATCH = v ∧
      (PBI_D1PutByte B D 0xd1ff v s).st.fp_active = true ∧
      (PBI_D1PutByte B D 0xd1ff v s).calls = (bankSelect B D v s.g).calls ∧
      (s.fp_active = false → ∀ i, i < 0x800 →
        (PBI_D1PutByte B D 0xd1ff v s).st.g.MEMORY_mem (0xd800 + i) =
          (bankSelect B D v s.g).g.MEMORY_os (0x1800 + i)) ∧
      (s.fp_active = true →
        (PBI_D1PutByte B D 0xd1ff v s).st.g = (bankSelect B D v s.g).g) ∧
      (∀ a, a < 0xd800 ∨ 0xdfff < a →
        (PBI_D1PutByte B D 0xd1ff v s).st.g.MEMORY_mem a =
          (bankSelect B D v s.g).g.MEMORY_mem a) ∧
      ((bankSelect B D v s.g).g.MEMORY_mem = s.g.MEMORY_mem → ∀ a, a < 0xd800 ∨ 0xdfff < a →
        (PBI_D1PutByte B D 0xd1ff v s).st.g.MEMORY_mem a = s.g.MEMORY_mem a) ∧
      (PBI_D1PutByte B D 0xd1ff v s).st.g =
        { (bankSelect B D v s.g).g with
          MEMORY_mem := (PBI_D1PutByte B D 0xd1ff v s).st.g.MEMORY_mem } ∧
      (noCooperatingD1 B D s → (bankSelect B D v s.g).g = s.g ∧
        (PBI_D1PutByte B D 0xd1ff v s).calls = []) := by
  rw [PBI_D1PutByte_d1ff B D s v hx (legalCodes_lt v hv), d1ffPut_legal B D s v hv hne]
  rw [if_neg (by simp [hnh])]
  have hout : ∀ a, a < 0xd800 ∨ 0xdfff < a →
      (reactivateFp s.fp_active (bankSelect B D v s.g).g).MEMORY_mem a =
        (bankSelect B D v s.g).g.MEMORY_mem a := by
    intro a ha
    unfold reactivateFp
    split_ifs
    · exact memcpy_outside _ _ _ _ _ _ (by omega)
    · rfl
  refine ⟨rfl, rfl, rfl, ?_, ?_, hout, ?_, ?_, ?_⟩
  · intro hf i hi
    simp only [reactivateFp, hf, Bool.not_false, if_true]
    exact memcpy_inside _ _ _ _ _ _ hi
  · intro hf
    simp [reactivateFp, hf]
  · intro hm a ha
    rw [← hm]
    exact hout a ha
  · unfold reactivateFp
    split_ifs <;> rfl
  · intro hc
    rw [bankSelect_noCooperating B D s v hc]
    exact ⟨rfl, rfl⟩

/-- Witness of C5 (scenario A): latch 0, ROM-shadow flag true, no device
enabled; writing `0x10` gives latch `0x10`, the flag stays true, and the
globals, memory included, are unchanged. -/
theorem unhandled_bank_select_witness :
    (PBI_D1PutByte fullBuild (idleDevices Unit) 0xd1ff 0x10 state0).st.D1FF_LATCH = 0x10 ∧
      (PBI_D1PutByte fullBuild (idleDevices Unit) 0xd1ff 0x10 state0).st.fp_active = true ∧
      (PBI_D1PutByte fullBuild (idleDevices Unit) 0xd1ff 0x10 state0).st.g = state0.g ∧
      (PBI_D1PutByte fullBuild (idleDevices Unit) 0xd1ff 0x10 state0).calls = [] :=
  have h := unhandled_bank_select fullBuild (idleDevices Unit) state0 0x10 ⟨rfl, rfl⟩
    (by decide) (by decide) rfl
  ⟨h.1, h.2.1, h.2.2.2.2.1 rfl, (h.2.2.2.2.2.2.2.2 ⟨rfl, rfl⟩).2⟩

/-- C7 fails as stated: with the exclusive device MIO enabled, `PBI_Reset`
forwards its write of 0 to MIO and the latch keeps the value 4. -/
theorem reset_keeps_latch_under_mio :
    mioOn fullBuild mioDevices state4.g = true ∧
      (PBI_Reset fullBuild mioDevices state4).st.D1FF_LATCH = 4 ∧
      ¬ (PBI_Reset fullBuild mioDevices state4).st.D1FF_LATCH = 0 := by
  refine ⟨rfl, rfl, by decide⟩

theorem PBI_Reset_ramFlag_of_put (B : Build) (D : Devices δ) (s : State δ)
    (hk : resetHandlersKeepRamFlag D)
    (hput : (PBI_D1PutByte B D 0xd1ff 0 s).st.g.PBI_D6D7ram = s.g.PBI_D6D7ram) :
    (PBI_Reset B D s).st.g.PBI_D6D7ram = s.g.PBI_D6D7ram := by
  obtain ⟨_, _, _, _, h5⟩ := hk
  unfold PBI_Reset
  dsimp only
  split_ifs
  · rw [h5]; exact hput
  · exact hput

theorem bankSelect_ramFlag (B : Build) (D : Devices δ) (v : Nat) (g : Globals δ)
    (hk : resetHandlersKeepRamFlag D) :
    (bankSelect B D v g).g.PBI_D6D7ram = g.PBI_D6D7ram := by
  obtain ⟨_, _, h3, h4, _⟩ := hk
  unfold bankSelect offerXLD offerPROTO80
  dsimp only
  split_ifs <;> simp [h3, h4]

theorem reactivateFp_ramFlag (fp : Bool) (g : Globals δ) :
    (reactivateFp fp g).PBI_D6D7ram = g.PBI_D6D7ram := by
  unfold reactivateFp
  split_ifs <;> rfl

theorem PBI_D1PutByte_d1ff_ramFlag (B : Build) (D : Devices δ) (v : Nat) (s : State δ)
    (hk : resetHandlersKeepRamFlag D) :
    (PBI_D1PutByte B D 0xd1ff v s).st.g.PBI_D6D7ram = s.g.PBI_D6D7ram := by
  have hb := bankSelect_ramFlag B D (v % 256) s.g hk
  obtain ⟨h1, h2, _, _, _⟩ := hk
  unfold PBI_D1PutByte d1ffPut
  dsimp only
  split_ifs <;> simp_all [reactivateFp_ramFlag]

/-- C7, amended: after `PBI_Reset` the IRQ aggregate is 0 in every
configuration; the latch is 0 when no exclusive D1 device is enabled, and keeps
its value when MIO or BB is enabled (the reset write goes to that device);
`PBI_Reset` itself does not write the RAM-backed flag, which keeps its value
whenever the device entry points invoked during the reset leave it alone. -/
theorem reset_effect (B : Build) (D : Devices δ) (s : State δ) :
    (PBI_Reset B D s).st.g.PBI_IRQ = 0 ∧
      (noExclusiveD1 B D s → (PBI_Reset B D s).st.D1FF_LATCH = 0) ∧
      (¬ noExclusiveD1 B D s → (PBI_Reset B D s).st.D1FF_LATCH = s.D1FF_LATCH) ∧
      (resetHandlersKeepRamFlag D →
        (PBI_Reset B D s).st.g.PBI_D6D7ram = s.g.PBI_D6D7ram) := by
  refine ⟨by simp [PBI_Reset], fun hx => ?_, fun hx => ?_, fun hk => ?_⟩
  · rw [(PBI_Reset_latch B D s).1, PBI_D1PutByte_d1ff B D s 0 hx (by decide)]
    unfold d1ffPut
    dsimp only
    split_ifs with h1 h2 h3
    · simp [d1ffInvalid] at h2
    · rfl
    · rfl
    · simpa using h1
  · rw [(PBI_Reset_latch B D s).1]
    unfold noExclusiveD1 at hx
    unfold PBI_D1PutByte
    dsimp only
    split_ifs with h1 h2
    · rfl
    · rfl
    · exact absurd ⟨by simpa using h1, by simpa using h2⟩ hx
    · exact absurd ⟨by simpa using h1, by simpa using h2⟩ hx
  · exact PBI_Reset_ramFlag_of_put B D s hk (PBI_D1PutByte_d1ff_ramFlag B D 0 s hk)

theorem bankDevices_keep_ramFlag : resetHandlersKeepRamFlag bankDevices := by
  refine ⟨fun _ _ _ => rfl, fun _ _ _ => rfl, fun b g => ?_, fun _ _ => rfl, fun _ => rfl⟩
  show (if b = 4 then _ else _ : Int × Globals Unit).2.PBI_D6D7ram = g.PBI_D6D7ram
  split_ifs <;> rfl

/-- Witness of the amended C7: with one cooperating device and latch 4, the
reset gives latch 0, IRQ 0 and the RAM-backed flag as before. -/
theorem reset_effect_witness :
    (PBI_Reset fullBuild bankDevices state4).st.g.PBI_IRQ = 0 ∧
      (PBI_Reset fullBuild bankDevices state4).st.D1FF_LATCH = 0 ∧
      (PBI_Reset fullBuild bankDevices state4).st.g.PBI_D6D7ram = state4.g.PBI_D6D7ram :=
  have h := reset_effect fullBuild bankDevices state4
  ⟨h.1, h.2.1 ⟨rfl, rfl⟩, h.2.2.2 bankDevices_keep_ramFlag⟩

/-! ## Reads -/

theorem toUBYTE_ff : toUBYTE 0xff = 0xff := by decide

theorem zero_lor (x : Int) : Int.lor 0 x = x := by
  cases x with
  | ofNat n => simp [Int.lor]
  | negSucc n =>
      show Int.lor (Int.ofNat 0) (Int.negSucc n) = Int.negSucc n
      simp [Int.lor, Nat.ldiff]

/-- The cooperative part of a D1 read when XLD is not consulted (it is
disabled, or side effects are suppressed) and `PBI_NOT_HANDLED` is not `0xff`:
the initial `result = 0xff` is returned at line 174. -/
theorem d1GetCoop_xld_skipped (B : Build) (D : Devices δ) (addr : Nat) (nse : Int)
    (s : State δ) (hnh : B.PBI_NOT_HANDLED ≠ 0xff)
    (hskip : xldOn B D s.g = false ∨ nse ≠ 0) :
    d1GetCoop B D addr nse s = { result := 0xff, st := s, calls := [] } := by
  have h1 : (xldOn B D s.g && nse == 0) = false := by
    rcases hskip with h | h
    · simp [h]
    · simp [h]
  have h2 : ((255 : Int) == B.PBI_NOT_HANDLED) = false := by
    simpa using fun h => hnh h.symm
  have h3 : ((255 : Int) != B.PBI_NOT_HANDLED) = true := by simp [bne, h2]
  simp [d1GetCoop, d1GetXLD, d1GetPROTO80, h1, h2, h3, toUBYTE_ff]

theorem PBI_D1GetByte_coop (B : Build) (D : Devices δ) (addr : Nat) (nse : Int) (s : State δ)
    (hx : noExclusiveD1 B D s) :
    PBI_D1GetByte B D addr nse s = d1GetCoop B D (addr % 65536) nse s := by
  obtain ⟨h1, h2⟩ := hx
  simp [PBI_D1GetByte, h1, h2]

/-- C8: when no device is enabled and the RAM-backed flag is false, a read at
any address of any of the three windows, with either value of
`no_side_effects`, returns `0xFF`, leaves the state as it is and invokes no
device entry point (`PBI_NOT_HANDLED` being different from `0xff`). -/
theorem open_bus_default (B : Build) (D : Devices δ) (s : State δ) (w : Window)
    (addr : Nat) (nse : Int) (hnh : B.PBI_NOT_HANDLED ≠ 0xff) (hd : noDevice B D s)
    (hram : s.g.PBI_D6D7ram = 0) :
    readByte B D w addr nse s = { result := 0xff, st := s, calls := [] } := by
  obtain ⟨hx, ⟨hxld, _⟩, haf, hbit⟩ := hd
  cases w with
  | D1 =>
      show PBI_D1GetByte B D addr nse s = _
      rw [PBI_D1GetByte_coop B D addr nse s hx]
      exact d1GetCoop_xld_skipped B D _ nse s hnh (Or.inl hxld)
  | D6 =>
      obtain ⟨h1, h2⟩ := hx
      simp [readByte, PBI_D6GetByte, haf, hbit, h1, h2, hram]
  | D7 => simp [readByte, PBI_D7GetByte, hram]

/-- Witness of C8: a suppressed read of the latch address `0xD1FF` at start-up
with no device returns `0xFF`. -/
theorem open_bus_default_witness :
    readByte fullBuild (idleDevices Unit) Window.D1 0xd1ff 1 state0 =
      { result := 0xff, st := state0, calls := [] } :=
  open_bus_default fullBuild (idleDevices Unit) state0 Window.D1 0xd1ff 1 (by decide)
    ⟨⟨rfl, rfl⟩, ⟨rfl, rfl⟩, rfl, rfl⟩ rfl

/-- C9, the code at the failing input (scenario C: XLD contributing IRQ
status `0x01`, PROTO80 nothing, neither handling `0xD1FF` as an ordinary read,
`PBI_NOT_HANDLED = -1`): the normal read returns `0x01`, but the
side-effect-suppressed read returns `0xFF`, not 0, without reaching the IRQ
branch, because `result` starts at `0xff` and line 174 returns it; with no
cooperating device enabled the normal read returns `0xFF` too, not the empty
OR. The IRQ branch of lines 179-181 itself gives 0 and calls nothing when it is
entered with the flag set. -/
theorem suppressed_irq_read_returns_ff :
    noExclusiveD1 fullBuild irqDevices state0 ∧
      (irqDevices.PBI_XLD_D1GetByte 0xd1ff state0.g).1 = fullBuild.PBI_NOT_HANDLED ∧
      (irqDevices.PBI_PROTO80_D1GetByte 0xd1ff 1 state0.g).1 = fullBuild.PBI_NOT_HANDLED ∧
      (PBI_D1GetByte fullBuild irqDevices 0xd1ff 0 state0).result = 0x01 ∧
      PBI_D1GetByte fullBuild irqDevices 0xd1ff 1 state0 =
        { result := 0xff, st := state0, calls := [] } ∧
      ¬ (PBI_D1GetByte fullBuild irqDevices 0xd1ff 1 state0).result = 0 ∧
      ¬ (PBI_D1GetByte fullBuild (idleDevices Unit) 0xd1ff 0 state0).result = 0 ∧
      (d1ffIrqStatus fullBuild irqDevices 1
        { result := fullBuild.PBI_NOT_HANDLED, g := state0.g, calls := [] }).result = 0 ∧
      (d1ffIrqStatus fullBuild irqDevices 1
        { result := fullBuild.PBI_NOT_HANDLED, g := state0.g, calls := [] }).calls = [] := by
  refine ⟨⟨rfl, rfl⟩, rfl, rfl, by decide, ?_, by decide, by decide, rfl, rfl⟩
  rw [PBI_D1GetByte_coop fullBuild irqDevices 0xd1ff 1 state0 ⟨rfl, rfl⟩]
  exact d1GetCoop_xld_skipped fullBuild irqDevices _ 1 state0 (by decide) (Or.inr (by decide))

theorem PBI_D1GetByte_latch_irrelevant (B : Build) (D : Devices δ) (addr : Nat) (nse : Int)
    (s : State δ) (l : Nat) :
    (PBI_D1GetByte B D addr nse { s with D1FF_LATCH := l }).result =
        (PBI_D1GetByte B D addr nse s).result ∧
      (PBI_D1GetByte B D addr nse { s with D1FF_LATCH := l }).calls =
        (PBI_D1GetByte B D addr nse s).calls ∧
      (PBI_D1GetByte B D addr nse { s with D1FF_LATCH := l }).st.g =
        (PBI_D1GetByte B D addr nse s).st.g := by
  unfold PBI_D1GetByte d1GetCoop
  dsimp only
  split_ifs <;> simp

/-! ## Side-effect suppression -/

theorem readByte_suppressed_st (B : Build) (D : Devices δ) (w : Window) (addr : Nat)
    (nse : Int) (s : State δ) (hp : suppressedReadsPure D) (hnse : nse ≠ 0) :
    (readByte B D w addr nse s).st = s := by
  have hpure := fun a g => hp a nse g hnse
  cases w with
  | D1 =>
      have hxld : ∀ c : Coop δ, d1GetXLD B D (addr % 65536) nse c = c := by
        intro c; simp [d1GetXLD, hnse]
      have hirq : ∀ c : Coop δ, (d1ffIrqStatus B D nse c).g = c.g := by
        intro c; simp [d1ffIrqStatus, hnse]
      have hproto : ∀ c : Coop δ, (d1GetPROTO80 B D (addr % 65536) nse c).g = c.g := by
        intro c
        unfold d1GetPROTO80
        split_ifs
        · exact (hpure _ _).2.2.1
        · rfl
      show (PBI_D1GetByte B D addr nse s).st = s
      unfold PBI_D1GetByte d1GetCoop
      dsimp only
      split_ifs <;> simp [(hpure _ _).1, (hpure _ _).2.1, hxld, hirq, hproto]
  | D6 =>
      show (PBI_D6GetByte B D addr nse s).st = s
      unfold PBI_D6GetByte
      dsimp only
      split_ifs <;>
        simp [(hpure _ _).2.2.2.1, (hpure _ _).2.2.2.2.1, (hpure _ _).2.2.2.2.2.1,
          (hpure _ _).2.2.2.2.2.2]
  | D7 => exact PBI_D7GetByte_st addr nse s

theorem readN_suppressed (B : Build) (D : Devices δ) (w : Window) (addr : Nat) (nse : Int)
    (hp : suppressedReadsPure D) (hnse : nse ≠ 0) (n : Nat) (s : State δ) :
    readN B D w addr nse n s = s := by
  induction n generalizing s with
  | zero => rfl
  | succ k ih =>
      show readN B D w addr nse k (readByte B D w addr nse s).st = s
      rw [readByte_suppressed_st B D w addr nse s hp hnse]
      exact ih s

/-- C10: if every read entry point of the devices is free of side effects
when called with `no_side_effects` set, then in every window, at every address
and from every state, `N + 1` reads with the flag set leave the whole state
unchanged (latch, ROM-shadow flag, RAM-backed flag, IRQ aggregate, memory and
device state), so a normal read performed afterwards returns what it returns
without them, with the same effect. -/
theorem suppressed_reads_are_invisible (B : Build) (D : Devices δ) (w : Window)
    (addr : Nat) (nse : Int) (N : Nat) (s : State δ)
    (hp : suppressedReadsPure D) (hnse : nse ≠ 0) :
    readN B D w addr nse (N + 1) s = s ∧
      readByte B D w addr 0 (readN B D w addr nse (N + 1) s) = readByte B D w addr 0 s := by
  have h := readN_suppressed B D w addr nse hp hnse (N + 1) s
  exact ⟨h, by rw [h]⟩

theorem countingDevices_pure : suppressedReadsPure countingDevices := by
  intro addr nse g hnse
  simp [countingDevices, idleDevices, hnse]

/-- Witness of C10: three suppressed D1 reads of a device that counts its
normal reads leave the state as it is, and the normal read that follows
returns the counter, 5, as it would without them. -/
theorem suppressed_reads_are_invisible_witness :
    readN fullBuild countingDevices Window.D1 0xd100 1 (2 + 1) stateCount = stateCount ∧
      readByte fullBuild countingDevices Window.D1 0xd100 0
          (readN fullBuild countingDevices Window.D1 0xd100 1 (2 + 1) stateCount) =
        readByte fullBuild countingDevices Window.D1 0xd100 0 stateCount ∧
      (readByte fullBuild countingDevices Window.D1 0xd100 0 stateCount).result = 5 ∧
      (readByte fullBuild countingDevices Window.D1 0xd100 0 stateCount).st.g.dev = 6 :=
  have h := suppressed_reads_are_invisible fullBuild countingDevices Window.D1 0xd100 1 2
    stateCount countingDevices_pure (by decide)
  ⟨h.1, h.2, by decide, by decide⟩

/-! ## Snapshots -/

/-- C11: `PBI_StateSave` appends the latch, the RAM-backed flag and the IRQ
aggregate, in this order, to the stream; `PBI_StateRead` applied to what it
wrote in state `s` (followed by anything else) gives, from any state `t`, a
state with the latch, the RAM-backed flag and the IRQ aggregate of `s`, every
other field of `t` as it was, and the rest of the stream. -/
theorem snapshot_roundtrip (s t : State δ) (rest : List Int) (hl : s.D1FF_LATCH < 256) :
    PBI_StateSave s [] = [(s.D1FF_LATCH : Int), s.g.PBI_D6D7ram, s.g.PBI_IRQ] ∧
      (∀ f, PBI_StateSave s f = f ++ PBI_StateSave s []) ∧
      PBI_StateRead (PBI_StateSave s [] ++ rest) t =
        ({ t with D1FF_LATCH := s.D1FF_LATCH
                  g := { t.g with PBI_D6D7ram := s.g.PBI_D6D7ram, PBI_IRQ := s.g.PBI_IRQ } },
          rest) := by
  refine ⟨rfl, fun f => ?_, ?_⟩
  · simp [PBI_StateSave, StateSav_SaveINT, StateSav_SaveUBYTE]
  · simp [PBI_StateRead, PBI_StateSave, StateSav_SaveINT, StateSav_SaveUBYTE,
      StateSav_ReadUBYTE, StateSav_ReadINT, toUBYTE_natCast _ hl]

/-- Witness of C11: the snapshot of the state with latch 4 loaded at
start-up. -/
theorem snapshot_roundtrip_witness :
    PBI_StateRead (PBI_StateSave state4 [] ++ []) state0 =
      ({ state0 with D1FF_LATCH := state4.D1FF_LATCH
                     g := { state0.g with PBI_D6D7ram := state4.g.PBI_D6D7ram
                                          PBI_IRQ := state4.g.PBI_IRQ } }, []) :=
  (snapshot_roundtrip state4 state0 [] (by decide)).2.2

/-! ## Exclusive devices in the D1 window -/

theorem toUBYTE_of_byte (r : Int) (h0 : 0 ≤ r) (h1 : r < 256) : (toUBYTE r : Int) = r := by
  unfold toUBYTE
  omega

/-- C12: when MIO is enabled, a D1 read is exactly MIO's read, called with the
address and the `no_side_effects` flag as given, and a D1 write is exactly
MIO's write; when MIO is not enabled and BB is, the same holds for BB. In both
cases the call list holds that one call, so no other entry point (exclusive,
cooperating, bank-select, IRQ-status) is consulted, and the byte returned is
the device's answer (unchanged when it is a byte value). -/
theorem exclusive_d1_device_owns_window (B : Build) (D : Devices δ) (s : State δ)
    (addr byte : Nat) (nse : Int) (ha : addr < 65536) (hb : byte < 256) :
    (mioOn B D s.g = true →
      PBI_D1GetByte B D addr nse s =
          { result := toUBYTE (D.PBI_MIO_D1GetByte addr nse s.g).1
            st := { s with g := (D.PBI_MIO_D1GetByte addr nse s.g).2 }
            calls := [Call.MIO_D1GetByte addr nse] } ∧
        PBI_D1PutByte B D addr byte s =
          { st := { s with g := D.PBI_MIO_D1PutByte addr byte s.g }
            calls := [Call.MIO_D1PutByte addr byte] }) ∧
      (mioOn B D s.g = false → bbOn B D s.g = true →
        PBI_D1GetByte B D addr nse s =
            { result := toUBYTE (D.PBI_BB_D1GetByte addr nse s.g).1
              st := { s with g := (D.PBI_BB_D1GetByte addr nse s.g).2 }
              calls := [Call.BB_D1GetByte addr nse] } ∧
          PBI_D1PutByte B D addr byte s =
            { st := { s with g := D.PBI_BB_D1PutByte addr byte s.g }
              calls := [Call.BB_D1PutByte addr byte] }) ∧
      (∀ r : Int, 0 ≤ r → r < 256 → (toUBYTE r : Int) = r) := by
  have ha2 := Nat.mod_eq_of_lt ha
  have hb2 := Nat.mod_eq_of_lt hb
  refine ⟨fun h1 => ?_, fun h1 h2 => ?_, toUBYTE_of_byte⟩
  · simp [PBI_D1GetByte, PBI_D1PutByte, h1, ha2, hb2]
  · simp [PBI_D1GetByte, PBI_D1PutByte, h1, h2, ha2, hb2]

/-- Witness of C12: with MIO, BB, XLD and PROTO80 all enabled, a read of
`0xD1FF` returns MIO's answer `0x5A` and only MIO is called, with the flag it
was given; a write reaches MIO only. -/
theorem exclusive_d1_device_owns_window_witness :
    (PBI_D1GetByte fullBuild exclusiveDevices 0xd1ff 1 state0).result = 0x5A ∧
      (PBI_D1GetByte fullBuild exclusiveDevices 0xd1ff 1 state0).calls =
        [Call.MIO_D1GetByte 0xd1ff 1] ∧
      (PBI_D1PutByte fullBuild exclusiveDevices 0xd1ff 4 state0).calls =
        [Call.MIO_D1PutByte 0xd1ff 4] :=
  have h := (exclusive_d1_device_owns_window fullBuild exclusiveDevices state0 0xd1ff 4 1
    (by decide) (by decide)).1 rfl
  ⟨by rw [h.1]; decide, by rw [h.1], by rw [h.2]⟩

/-! ## Cooperating devices in the D1 window -/

/-- C13, the code at the failing input: with `PBI_NOT_HANDLED = -1` and
PROTO80 the only enabled device, answering `0x42`, the normal read of `0xD100`
returns `0xFF` and PROTO80 is not called at all, because `result` starts at
`0xff` and not at `PBI_NOT_HANDLED`. With XLD enabled and declining, the same
PROTO80 is consulted and its `0x42` is returned. -/
theorem proto80_alone_not_consulted :
    noExclusiveD1 fullBuild proto80Devices state0 ∧
      xldOn fullBuild proto80Devices state0.g = false ∧
      proto80On fullBuild proto80Devices state0.g = true ∧
      (proto80Devices.PBI_PROTO80_D1GetByte 0xd100 0 state0.g).1 = 0x42 ∧
      PBI_D1GetByte fullBuild proto80Devices 0xd100 0 state0 =
        { result := 0xff, st := state0, calls := [] } ∧
      (PBI_D1GetByte fullBuild xldDeclinesDevices 0xd100 0 state0).result = 0x42 ∧
      (PBI_D1GetByte fullBuild xldDeclinesDevices 0xd100 0 state0).calls =
        [Call.XLD_D1GetByte 0xd100, Call.PROTO80_D1GetByte 0xd100 0] := by
  refine ⟨⟨rfl, rfl⟩, rfl, rfl, rfl, ?_, by decide, rfl⟩
  rw [PBI_D1GetByte_coop fullBuild proto80Devices 0xd100 0 state0 ⟨rfl, rfl⟩]
  exact d1GetCoop_xld_skipped fullBuild proto80Devices _ 0 state0 (by decide) (Or.inl rfl)

/-- C18, the code at the failing input: in a build that defines
`PBI_PROTO80` (and not `PBI_PROTO_80`), with PROTO80 enabled, the write of
`0x42` to `0xD100` invokes no device entry point, so PROTO80 does not receive
it; the bank-select write of 1, guarded by `PBI_PROTO80`, does reach
PROTO80. -/
theorem proto80_write_not_delivered :
    fullBuild.PBI_PROTO80 = true ∧ fullBuild.PBI_PROTO_80 = false ∧
      noExclusiveD1 fullBuild proto80Devices state0 ∧
      proto80On fullBuild proto80Devices state0.g = true ∧
      PBI_D1PutByte fullBuild proto80Devices 0xd100 0x42 state0 =
        { st := state0, calls := [] } ∧
      (PBI_D1PutByte fullBuild proto80Devices 0xd1ff 1 state0).calls =
        [Call.PROTO80_D1ffPutByte 1] := by
  refine ⟨rfl, rfl, ⟨rfl, rfl⟩, rfl, rfl, rfl⟩

/-! ## The D6 and D7 windows -/

/-- C14 fails as stated for the D7 window: with AF80 enabled and the
RAM-backed flag set, the D6 read is AF80's (`0x33`), but the D7 read consults
no device and returns the RAM byte `0x5A`, and the D7 write goes to RAM. -/
theorem d7_ignores_devices :
    af80On fullBuild af80Devices stateRam.g = true ∧
      (PBI_D6GetByte fullBuild af80Devices 0xd600 0 stateRam).result = 0x33 ∧
      (PBI_D7GetByte 0xd700 0 stateRam).result = 0x5A ∧
      (PBI_D7GetByte 0xd700 0 stateRam).calls = [] ∧
      (PBI_D7PutByte 0xd700 0x11 stateRam).calls = [] ∧
      stateRam.g.MEMORY_mem 0xd700 = 0x5A ∧
      (PBI_D7PutByte 0xd700 0x11 stateRam).st.g.MEMORY_mem 0xd700 = 0x11 := by
  refine ⟨rfl, by decide, rfl, rfl, rfl, rfl, rfl⟩

/-- C14, amended: in the D6 window the first enabled device in the order
AF80, BIT3, MIO, BB answers the read and receives the write, nothing else is
called, and `pbi.c` itself neither reads nor writes `MEMORY_mem`, whatever the
RAM-backed flag is; the RAM-backed window or the `0xFF` / no-op default is
used only when none of them is enabled. The D7 window has no device list: it
is always the RAM-backed window or the default, whatever devices are
enabled. -/
theorem d6_priority_d7_ram (B : Build) (D : Devices δ) (s : State δ)
    (addr byte : Nat) (nse : Int) (ha : addr < 65536) (hb : byte < 256) :
    (af80On B D s.g = true →
      PBI_D6GetByte B D addr nse s =
          { result := toUBYTE (D.AF80_D6GetByte addr nse s.g).1
            st := { s with g := (D.AF80_D6GetByte addr nse s.g).2 }
            calls := [Call.AF80_D6GetByte addr nse] } ∧
        PBI_D6PutByte B D addr byte s =
          { st := { s with g := D.AF80_D6PutByte addr byte s.g }
            calls := [Call.AF80_D6PutByte addr byte] }) ∧
      (af80On B D s.g = false → bit3On B D s.g = true →
        PBI_D6GetByte B D addr nse s =
            { result := toUBYTE (D.BIT3_D6GetByte addr nse s.g).1
              st := { s with g := (D.BIT3_D6GetByte addr nse s.g).2 }
              calls := [Call.BIT3_D6GetByte addr nse] } ∧
          PBI_D6PutByte B D addr byte s =
            { st := { s with g := D.BIT3_D6PutByte addr byte s.g }
              calls := [Call.BIT3_D6PutByte addr byte] }) ∧
      (af80On B D s.g = false → bit3On B D s.g = false → mioOn B D s.g = true →
        PBI_D6GetByte B D addr nse s =
            { result := toUBYTE (D.PBI_MIO_D6GetByte addr nse s.g).1
              st := { s with g := (D.PBI_MIO_D6GetByte addr nse s.g).2 }
              calls := [Call.MIO_D6GetByte addr nse] } ∧
          PBI_D6PutByte B D addr byte s =
            { st := { s with g := D.PBI_MIO_D6PutByte addr byte s.g }
              calls := [Call.MIO_D6PutByte addr byte] }) ∧
      (af80On B D s.g = false → bit3On B D s.g = false → mioOn B D s.g = false →
          bbOn B D s.g = true →
        PBI_D6GetByte B D addr nse s =
            { result := toUBYTE (D.PBI_BB_D6GetByte addr nse s.g).1
              st := { s with g := (D.PBI_BB_D6GetByte addr nse s.g).2 }
              calls := [Call.BB_D6GetByte addr nse] } ∧
          PBI_D6PutByte B D addr byte s =
            { st := { s with g := D.PBI_BB_D6PutByte addr byte s.g }
              calls := [Call.BB_D6PutByte addr byte] }) ∧
      (noD6Device B D s →
        PBI_D6GetByte B D addr nse s = PBI_D7GetByte addr nse s ∧
          PBI_D6PutByte B D addr byte s = PBI_D7PutByte addr byte s) ∧
      PBI_D7GetByte addr nse s =
        { result := if s.g.PBI_D6D7ram ≠ 0 then s.g.MEMORY_mem addr else 0xff
          st := s, calls := [] } ∧
      PBI_D7PutByte addr byte s =
        { st := if s.g.PBI_D6D7ram ≠ 0 then
                  { s with g := { s.g with
                      MEMORY_mem := Function.update s.g.MEMORY_mem addr byte } }
                else s
          calls := [] } := by
  have ha2 := Nat.mod_eq_of_lt ha
  have hb2 := Nat.mod_eq_of_lt hb
  refine ⟨fun h1 => ?_, fun h1 h2 => ?_, fun h1 h2 h3 => ?_, fun h1 h2 h3 h4 => ?_,
    fun hd => ?_, ?_, ?_⟩
  · simp [PBI_D6GetByte, PBI_D6PutByte, h1, ha2, hb2]
  · simp [PBI_D6GetByte, PBI_D6PutByte, h1, h2, ha2, hb2]
  · simp [PBI_D6GetByte, PBI_D6PutByte, h1, h2, h3, ha2, hb2]
  · simp [PBI_D6GetByte, PBI_D6PutByte, h1, h2, h3, h4, ha2, hb2]
  · obtain ⟨h1, h2, h3, h4⟩ := hd
    simp [PBI_D6GetByte, PBI_D6PutByte, PBI_D7GetByte, PBI_D7PutByte, h1, h2, h3, h4]
  · unfold PBI_D7GetByte
    simp only [ha2]
    split_ifs <;> simp_all
  · unfold PBI_D7PutByte
    simp only [ha2, hb2]
    split_ifs <;> simp_all

/-- Witness of the amended C14: with AF80 enabled and the RAM-backed flag
set, the D6 read is AF80's answer and only AF80 is called. -/
theorem d6_priority_d7_ram_witness :
    PBI_D6GetByte fullBuild af80Devices 0xd600 0 stateRam =
      { result := toUBYTE (af80Devices.AF80_D6GetByte 0xd600 0 stateRam.g).1
        st := { stateRam with g := (af80Devices.AF80_D6GetByte 0xd600 0 stateRam.g).2 }
        calls := [Call.AF80_D6GetByte 0xd600 0] } :=
  ((d6_priority_d7_ram fullBuild af80Devices stateRam 0xd600 0 0 (by decide) (by decide)).1
    rfl).1

theorem PBI_D6GetByte_noDevice (B : Build) (D : Devices δ) (s : State δ) (addr : Nat)
    (nse : Int) (hd : noD6Device B D s) :
    PBI_D6GetByte B D addr nse s = PBI_D7GetByte addr nse s := by
  obtain ⟨h1, h2, h3, h4⟩ := hd
  simp [PBI_D6GetByte, PBI_D7GetByte, h1, h2, h3, h4]

theorem PBI_D6PutByte_noDevice (B : Build) (D : Devices δ) (s : State δ) (addr byte : Nat)
    (hd : noD6Device B D s) :
    PBI_D6PutByte B D addr byte s = PBI_D7PutByte addr byte s := by
  obtain ⟨h1, h2, h3, h4⟩ := hd
  simp [PBI_D6PutByte, PBI_D7PutByte, h1, h2, h3, h4]

theorem noD6Device_of_dev_eq (B : Build) (D : Devices δ) (s t : State δ)
    (h : t.g.dev = s.g.dev) (hd : noD6Device B D s) : noD6Device B D t := by
  unfold noD6Device af80On bit3On mioOn bbOn at *
  rw [h]
  exact hd

theorem PBI_D7PutByte_dev (addr byte : Nat) (s : State δ) :
    (PBI_D7PutByte addr byte s).st.g.dev = s.g.dev := by
  unfold PBI_D7PutByte
  dsimp only
  split_ifs <;> rfl

/-- C15: in the window `w` (D6 with no D6 device enabled, or D7), for every
address `a` and byte `v`: when the RAM-backed flag is false the read returns
`0xFF` and the write returns the state it was given, both without any call;
when the flag is true the write stores `v` in `MEMORY_mem[a]`, changes no
other cell and nothing else in the state, and the read that follows returns
`v`. -/
theorem ram_backed_window (B : Build) (D : Devices δ) (s : State δ) (w : Window)
    (a v : Nat) (nse : Int) (hw : w = Window.D6 ∨ w = Window.D7)
    (hd : w = Window.D6 → noD6Device B D s) (ha : a < 65536) (hv : v < 256) :
    (s.g.PBI_D6D7ram = 0 →
      readByte B D w a nse s = { result := 0xff, st := s, calls := [] } ∧
        writeByte B D w a v s = { st := s, calls := [] }) ∧
      (s.g.PBI_D6D7ram ≠ 0 →
        writeByte B D w a v s =
            { st := { s with g := { s.g with
                        MEMORY_mem := Function.update s.g.MEMORY_mem a v } }
              calls := [] } ∧
          (writeByte B D w a v s).st.g.MEMORY_mem a = v ∧
          (∀ b, b ≠ a → (writeByte B D w a v s).st.g.MEMORY_mem b = s.g.MEMORY_mem b) ∧
          (readByte B D w a nse (writeByte B D w a v s).st).result = v) := by
  have ha2 := Nat.mod_eq_of_lt ha
  have hv2 := Nat.mod_eq_of_lt hv
  have h7g : ∀ t : State δ, t.g.PBI_D6D7ram = 0 →
      PBI_D7GetByte a nse t = { result := 0xff, st := t, calls := [] } := by
    intro t ht; simp [PBI_D7GetByte, ht]
  have h7p : s.g.PBI_D6D7ram = 0 → PBI_D7PutByte a v s = { st := s, calls := [] } := by
    intro ht; simp [PBI_D7PutByte, ht]
  have h7p1 : s.g.PBI_D6D7ram ≠ 0 → PBI_D7PutByte a v s =
      { st := { s with g := { s.g with MEMORY_mem := Function.update s.g.MEMORY_mem a v } }
        calls := [] } := by
    intro ht; simp [PBI_D7PutByte, ht, ha2, hv2]
  have h7r : s.g.PBI_D6D7ram ≠ 0 →
      (PBI_D7GetByte a nse (PBI_D7PutByte a v s).st).result = v := by
    intro ht; rw [h7p1 ht]; simp [PBI_D7GetByte, ht]; rw [ha2]; simp
  have hrd : ∀ t : State δ, t.g.dev = s.g.dev → readByte B D w a nse t = PBI_D7GetByte a nse t := by
    intro t ht
    rcases hw with h | h
    · subst h
      exact PBI_D6GetByte_noDevice B D t a nse (noD6Device_of_dev_eq B D s t ht (hd rfl))
    · subst h; rfl
  have hwr : writeByte B D w a v s = PBI_D7PutByte a v s := by
    rcases hw with h | h
    · subst h; exact PBI_D6PutByte_noDevice B D s a v (hd rfl)
    · subst h; rfl
  refine ⟨fun h0 => ⟨?_, ?_⟩, fun h1 => ⟨?_, ?_, ?_, ?_⟩⟩
  · rw [hrd s rfl]; exact h7g s h0
  · rw [hwr]; exact h7p h0
  · rw [hwr]; exact h7p1 h1
  · rw [hwr, h7p1 h1]; simp
  · intro b hb
    rw [hwr, h7p1 h1]
    simp [Function.update, hb]
  · rw [hrd _ (by rw [hwr]; exact PBI_D7PutByte_dev a v s), hwr]
    exact h7r h1

/-- Witness of C15 (scenario D): D6 window, no device enabled; with the
RAM-backed flag false the read returns `0xFF` and the write is a no-op; with
the flag set, the byte written is the byte read back. -/
theorem ram_backed_window_witness :
    (readByte fullBuild (idleDevices Unit) Window.D6 0xd600 0 state0 =
        { result := 0xff, st := state0, calls := [] } ∧
      writeByte fullBuild (idleDevices Unit) Window.D6 0xd600 0x11 state0 =
        { st := state0, calls := [] }) ∧
      (readByte fullBuild (idleDevices Unit) Window.D6 0xd600 0
        (writeByte fullBuild (idleDevices Unit) Window.D6 0xd600 0x11 stateRam).st).result =
          0x11 :=
  ⟨(ram_backed_window fullBuild (idleDevices Unit) state0 Window.D6 0xd600 0x11 0 (Or.inl rfl)
      (fun _ => ⟨rfl, rfl, rfl, rfl⟩) (by decide) (by decide)).1 rfl,
    ((ram_backed_window fullBuild (idleDevices Unit) stateRam Window.D6 0xd600 0x11 0
      (Or.inl rfl) (fun _ => ⟨rfl, rfl, rfl, rfl⟩) (by decide) (by decide)).2
        (by decide)).2.2.2⟩

/-! ## The latch and the ROM-shadow flag -/

theorem PBI_StateSave_eq_with (s : State δ) (f : List Int) :
    PBI_StateSave s f = PBI_StateSaveWith verbatimStateSav s f := rfl

theorem PBI_StateRead_eq_with (f : List Int) (s : State δ) :
    PBI_StateRead f s = PBI_StateReadWith verbatimStateSav f s := rfl

/-- C16 fails as stated: when a snapshot saved in a state with latch 4 and the
ROM-shadow flag false is loaded into the start-up state (latch 0, flag true),
the flag after the load is still true whatever the snapshot primitives of
`statesav.c` do, because `PBI_StateSave` and `PBI_StateRead` never pass it to
them; so the pair after the load is not the pair that was saved. With
primitives that save and load verbatim the latch is changed to 4, alone. -/
theorem restore_changes_latch_alone :
    state0.D1FF_LATCH = 0 ∧ state0.fp_active = true ∧
      state4.D1FF_LATCH = 4 ∧ state4.fp_active = false ∧
      (∀ (σ : Type) (P : StateSav σ) (f : σ),
        (PBI_StateReadWith P (PBI_StateSaveWith P state4 f) state0).1.fp_active = true ∧
        ¬ (((PBI_StateReadWith P (PBI_StateSaveWith P state4 f) state0).1.D1FF_LATCH,
            (PBI_StateReadWith P (PBI_StateSaveWith P state4 f) state0).1.fp_active) =
          (state4.D1FF_LATCH, state4.fp_active))) ∧
      (PBI_StateRead (PBI_StateSave state4 []) state0).1.D1FF_LATCH = 4 ∧
      (PBI_StateRead (PBI_StateSave state4 []) state0).1.fp_active = true := by
  refine ⟨rfl, rfl, rfl, rfl, fun σ P f => ⟨rfl, fun h => ?_⟩, by decide, rfl⟩
  have h2 : (true : Bool) = false := congrArg Prod.snd h
  exact Bool.noConfusion h2

theorem d1ffPut_flag_with_latch (B : Build) (D : Devices δ) (byte : Nat) (s : State δ)
    (h : (d1ffPut B D byte s).st.fp_active ≠ s.fp_active) :
    (d1ffPut B D byte s).st.D1FF_LATCH ≠ s.D1FF_LATCH := by
  unfold d1ffPut at h ⊢
  dsimp only at h ⊢
  split_ifs at h ⊢ with h1 h2 h3
  · exact absurd rfl h
  · exact fun e => by simp at h1; exact h1 e.symm
  · exact fun e => by simp at h1; exact h1 e.symm
  · exact absurd rfl h

theorem PBI_D1PutByte_flag_with_latch (B : Build) (D : Devices δ) (addr byte : Nat)
    (s : State δ) (h : (PBI_D1PutByte B D addr byte s).st.fp_active ≠ s.fp_active) :
    (PBI_D1PutByte B D addr byte s).st.D1FF_LATCH ≠ s.D1FF_LATCH := by
  unfold PBI_D1PutByte at h ⊢
  dsimp only at h ⊢
  split_ifs at h ⊢
  · exact absurd rfl h
  · exact absurd rfl h
  · exact absurd rfl h
  · exact d1ffPut_flag_with_latch B D _ s h

/-- A D1 write to an address other than `0xD1FF`, or with MIO or BB enabled,
assigns neither the latch nor the ROM-shadow flag. -/
theorem PBI_D1PutByte_off_latch (B : Build) (D : Devices δ) (addr byte : Nat) (s : State δ)
    (h : addr % 65536 ≠ 0xd1ff ∨ ¬ noExclusiveD1 B D s) :
    (PBI_D1PutByte B D addr byte s).st.D1FF_LATCH = s.D1FF_LATCH ∧
      (PBI_D1PutByte B D addr byte s).st.fp_active = s.fp_active := by
  unfold PBI_D1PutByte
  dsimp only
  split_ifs with h1 h2 h3
  · exact ⟨rfl, rfl⟩
  · exact ⟨rfl, rfl⟩
  · exact ⟨rfl, rfl⟩
  · rcases h with h | h
    · exact absurd (by simpa using h3) h
    · exact absurd ⟨by simpa using h1, by simpa using h2⟩ h

/-- A write of a byte to `0xD1FF` with no exclusive device enabled: nothing
changes when the byte is the latch or is not a legal code; otherwise the latch
becomes the byte and the flag becomes "no device handled it". -/
theorem PBI_D1PutByte_on_latch (B : Build) (D : Devices δ) (byte : Nat) (s : State δ)
    (hx : noExclusiveD1 B D s) (hb : byte < 256) :
    (byte = s.D1FF_LATCH ∨ byte ∉ legalCodes →
        PBI_D1PutByte B D 0xd1ff byte s = { st := s, calls := [] }) ∧
      (byte ≠ s.D1FF_LATCH → byte ∈ legalCodes →
        (PBI_D1PutByte B D 0xd1ff byte s).st.D1FF_LATCH = byte ∧
          (PBI_D1PutByte B D 0xd1ff byte s).st.fp_active =
            !(bankSelect B D byte s.g).handled) := by
  rw [PBI_D1PutByte_d1ff B D s byte hx hb]
  refine ⟨fun h => ?_, fun hne hl => ?_⟩
  · rcases h with h | h
    · simp [d1ffPut, h]
    · have hi := (d1ffInvalid_eq_true_iff byte).2 h
      unfold d1ffPut
      split <;> simp [hi]
  · rw [d1ffPut_legal B D s byte hl hne]
    split_ifs with hh
    · exact ⟨rfl, by simp [hh]⟩
    · exact ⟨rfl, by simp [hh]⟩

/-- C16, amended: the latch and the ROM-shadow flag are left as they are by
every read in any window, by every D6 and D7 write, and by every D1 write to
an address other than `0xD1FF` or made while MIO or BB is enabled. A write to
`0xD1FF` with no exclusive device changes nothing when the byte is the current
latch or is illegal, and otherwise assigns both in the same transition: the
latch becomes the byte (a new value) and the flag becomes "no device handled
it"; so the flag never changes unless the latch changes. `PBI_Reset` acts on
the pair as its write of 0 to `0xD1FF` does. `PBI_StateRead` never assigns the
flag, whatever the snapshot primitives do: it sets the latch to what the
primitive reads (the saved latch, for verbatim primitives) and the flag stays
that of the state that loads the snapshot. -/
theorem latch_flag_transitions (B : Build) (D : Devices δ) (s : State δ) :
    (∀ w addr nse, (readByte B D w addr nse s).st.D1FF_LATCH = s.D1FF_LATCH ∧
        (readByte B D w addr nse s).st.fp_active = s.fp_active) ∧
      (∀ w addr byte, (writeByte B D w addr byte s).st.fp_active ≠ s.fp_active →
        (writeByte B D w addr byte s).st.D1FF_LATCH ≠ s.D1FF_LATCH) ∧
      ((PBI_Reset B D s).st.fp_active ≠ s.fp_active →
        (PBI_Reset B D s).st.D1FF_LATCH ≠ s.D1FF_LATCH) ∧
      (∀ f, (PBI_StateRead f s).1.fp_active = s.fp_active) ∧
      (∀ saved : State δ, saved.D1FF_LATCH < 256 →
        (PBI_StateRead (PBI_StateSave saved []) s).1.D1FF_LATCH = saved.D1FF_LATCH ∧
          (PBI_StateRead (PBI_StateSave saved []) s).1.fp_active = s.fp_active) ∧
      (∀ addr byte, (PBI_D6PutByte B D addr byte s).st.D1FF_LATCH = s.D1FF_LATCH ∧
        (PBI_D6PutByte B D addr byte s).st.fp_active = s.fp_active ∧
        (PBI_D7PutByte addr byte s).st.D1FF_LATCH = s.D1FF_LATCH ∧
        (PBI_D7PutByte addr byte s).st.fp_active = s.fp_active) ∧
      (∀ addr byte, addr % 65536 ≠ 0xd1ff ∨ ¬ noExclusiveD1 B D s →
        (PBI_D1PutByte B D addr byte s).st.D1FF_LATCH = s.D1FF_LATCH ∧
          (PBI_D1PutByte B D addr byte s).st.fp_active = s.fp_active) ∧
      (∀ byte, noExclusiveD1 B D s → byte < 256 →
        (byte = s.D1FF_LATCH ∨ byte ∉ legalCodes →
          PBI_D1PutByte B D 0xd1ff byte s = { st := s, calls := [] }) ∧
        (byte ≠ s.D1FF_LATCH → byte ∈ legalCodes →
          (PBI_D1PutByte B D 0xd1ff byte s).st.D1FF_LATCH = byte ∧
            (PBI_D1PutByte B D 0xd1ff byte s).st.fp_active =
              !(bankSelect B D byte s.g).handled)) ∧
      ((PBI_Reset B D s).st.D1FF_LATCH = (PBI_D1PutByte B D 0xd1ff 0 s).st.D1FF_LATCH ∧
        (PBI_Reset B D s).st.fp_active = (PBI_D1PutByte B D 0xd1ff 0 s).st.fp_active) ∧
      (∀ (σ : Type) (P : StateSav σ) (f : σ),
        (PBI_StateReadWith P f s).1.fp_active = s.fp_active ∧
          (PBI_StateReadWith P f s).1.D1FF_LATCH = (P.ReadUBYTE s.D1FF_LATCH f).1) := by
  refine ⟨fun w addr nse => readByte_latch B D w addr nse s, fun w addr byte h => ?_,
    fun h => ?_, fun f => rfl, fun saved hl => ⟨?_, rfl⟩, fun addr byte => ?_,
    fun addr byte h => PBI_D1PutByte_off_latch B D addr byte s h,
    fun byte hx hb => PBI_D1PutByte_on_latch B D byte s hx hb,
    PBI_Reset_latch B D s, fun σ P f => ⟨rfl, rfl⟩⟩
  · cases w with
    | D1 => exact PBI_D1PutByte_flag_with_latch B D addr byte s h
    | D6 => exact absurd (PBI_D6PutByte_latch B D addr byte s).2 h
    | D7 => exact absurd (PBI_D7PutByte_latch addr byte s).2 h
  · rw [(PBI_Reset_latch B D s).1]
    rw [(PBI_Reset_latch B D s).2] at h
    exact PBI_D1PutByte_flag_with_latch B D _ _ s h
  · exact PBI_StateRead_StateSave_latch saved s hl
  · exact ⟨(PBI_D6PutByte_latch B D addr byte s).1, (PBI_D6PutByte_latch B D addr byte s).2,
      (PBI_D7PutByte_latch addr byte s).1, (PBI_D7PutByte_latch addr byte s).2⟩

/-- Witness of the amended C16: the handled bank-select of scenario B assigns
the latch (4) and the flag (false) together; the write of `0x42` to `0xD100`
leaves both; loading the snapshot of latch 4 at start-up gives latch 4 with the
flag of the loading state. -/
theorem latch_flag_transitions_witness :
    ((PBI_D1PutByte fullBuild bankDevices 0xd1ff 4 state0).st.D1FF_LATCH = 4 ∧
        (PBI_D1PutByte fullBuild bankDevices 0xd1ff 4 state0).st.fp_active =
          !(bankSelect fullBuild bankDevices 4 state0.g).handled) ∧
      ((PBI_D1PutByte fullBuild bankDevices 0xd100 0x42 state0).st.D1FF_LATCH =
          state0.D1FF_LATCH ∧
        (PBI_D1PutByte fullBuild bankDevices 0xd100 0x42 state0).st.fp_active =
          state0.fp_active) ∧
      ((PBI_StateRead (PBI_StateSave state4 []) state0).1.D1FF_LATCH = state4.D1FF_LATCH ∧
        (PBI_StateRead (PBI_StateSave state4 []) state0).1.fp_active = state0.fp_active) :=
  have h := latch_flag_transitions fullBuild bankDevices state0
  ⟨(h.2.2.2.2.2.2.2.1 4 ⟨rfl, rfl⟩ (by decide)).2 (by decide) (by decide),
    h.2.2.2.2.2.2.1 0xd100 0x42 (Or.inl (by decide)),
    h.2.2.2.2.1 state4 (by decide)⟩

/-! ## Configuration keys -/

theorem cfgInv_cfgLink (pre : List CfgDevice) (c : Cfg δ) (defined : Bool) (d : CfgDevice)
    (h : Globals δ → Int × Globals δ) (hc : cfgInv pre c) :
    cfgInv (pre ++ if defined then [d] else []) (cfgLink defined d h c) := by
  obtain ⟨h1, h2, h3, h4⟩ := hc
  unfold cfgLink
  by_cases hr : c.result = true
  · rw [if_pos hr]
    exact ⟨h1, h2, h3.trans (List.prefix_append _ _), fun hf => by simp [hf] at hr⟩
  · have hf : c.result = false := by simpa using hr
    obtain ⟨h5, h6⟩ := h4 hf
    rw [if_neg hr]
    cases defined with
    | false => simpa using ⟨h1, h2, h3, h4⟩
    | true =>
        simp only [if_true]
        refine ⟨?_, ?_, ?_, ?_⟩
        · constructor
          · intro ha
            exact ⟨{ device := d, answer := (h c.g).1 }, by simp, by simpa using ha⟩
          · rintro ⟨e, he, hne⟩
            rcases List.mem_append.1 he with he | he
            · exact absurd (h6 e he) hne
            · simp at he
              subst he
              simpa using hne
        · intro e he
          rw [List.dropLast_concat] at he
          exact h6 e he
        · simp [h5]
        · intro hz
          refine ⟨by simp [h5], fun e he => ?_⟩
          rcases List.mem_append.1 he with he | he
          · exact h6 e he
          · simp at he
            subst he
            simpa using hz

theorem PBI_ReadConfig_log (B : Build) (C : ConfigHandlers δ) (string ptr : String)
    (g : Globals δ) :
    ((PBI_ReadConfig B C string ptr g).result = true ↔
        ∃ e ∈ (PBI_ReadConfig B C string ptr g).calls, e.answer ≠ 0) ∧
      (∀ e ∈ (PBI_ReadConfig B C string ptr g).calls.dropLast, e.answer = 0) ∧
      ((PBI_ReadConfig B C string ptr g).calls.map CfgCall.device <+: cfgPriority B) ∧
      ((PBI_ReadConfig B C string ptr g).result = false →
        (PBI_ReadConfig B C string ptr g).calls.map CfgCall.device = cfgPriority B ∧
          ∀ e ∈ (PBI_ReadConfig B C string ptr g).calls, e.answer = 0) := by
  have h0 : cfgInv ([] : List CfgDevice) ({ result := false, g := g, calls := [] } : Cfg δ) := by
    simp [cfgInv]
  have h1 := cfgInv_cfgLink _ _ B.PBI_XLD CfgDevice.XLD (C.PBI_XLD_ReadConfig string ptr) h0
  have h2 := cfgInv_cfgLink _ _ B.PBI_MIO CfgDevice.MIO (C.PBI_MIO_ReadConfig string ptr) h1
  have h3 := cfgInv_cfgLink _ _ B.PBI_BB CfgDevice.BB (C.PBI_BB_ReadConfig string ptr) h2
  have h4 := cfgInv_cfgLink _ _ B.PBI_PROTO80 CfgDevice.PROTO80
    (C.PBI_PROTO80_ReadConfig string ptr) h3
  simpa [cfgPriority] using h4

theorem cfgLink_first (defined : Bool) (d : CfgDevice) (h : Globals δ → Int × Globals δ)
    (g : Globals δ) :
    cfgLink defined d h { result := false, g := g, calls := [] } =
      { result := defined && (h g).1 != 0
        g := if defined then (h g).2 else g
        calls := if defined then [{ device := d, answer := (h g).1 }] else [] } := by
  cases defined <;> simp [cfgLink]

theorem cfgLink_mk (defined : Bool) (d : CfgDevice) (h : Globals δ → Int × Globals δ)
    (r : Bool) (g : Globals δ) (calls : List CfgCall) :
    cfgLink defined d h { result := r, g := g, calls := calls } =
      { result := r || (defined && (h g).1 != 0)
        g := if !r && defined then (h g).2 else g
        calls := calls ++ if !r && defined then [{ device := d, answer := (h g).1 }] else [] } := by
  cases r <;> cases defined <;> simp [cfgLink]

/-- C17: for every key and value, follow the chain of `PBI_ReadConfig` with
`x`, `m`, `b`, `p` the answers that the `ReadConfig` handlers of XLD, MIO, BB,
PROTO80 return on the globals left by the last handler consulted before them.
`PBI_ReadConfig` returns `TRUE` exactly when a compiled-in handler among them
reports a match (a non-zero answer). XLD is consulted first, and each later
handler exactly when it is compiled in and no earlier one matched, so no
handler after the first matching one is consulted. The call log holds the
consulted handlers in the order XLD, MIO, BB, PROTO80, each with the answer it
returned, and the globals are those left by the last handler consulted. -/
theorem readConfig_first_match (B : Build) (C : ConfigHandlers δ) (string ptr : String)
    (g : Globals δ) :
    let x := C.PBI_XLD_ReadConfig string ptr g
    let r1 := B.PBI_XLD && x.1 != 0
    let g1 := if B.PBI_XLD then x.2 else g
    let m := C.PBI_MIO_ReadConfig string ptr g1
    let r2 := r1 || (B.PBI_MIO && m.1 != 0)
    let g2 := if !r1 && B.PBI_MIO then m.2 else g1
    let b := C.PBI_BB_ReadConfig string ptr g2
    let r3 := r2 || (B.PBI_BB && b.1 != 0)
    let g3 := if !r2 && B.PBI_BB then b.2 else g2
    let p := C.PBI_PROTO80_ReadConfig string ptr g3
    ((PBI_ReadConfig B C string ptr g).result = true ↔
        (B.PBI_XLD = true ∧ x.1 ≠ 0) ∨ (B.PBI_MIO = true ∧ m.1 ≠ 0) ∨
          (B.PBI_BB = true ∧ b.1 ≠ 0) ∨ (B.PBI_PROTO80 = true ∧ p.1 ≠ 0)) ∧
      (PBI_ReadConfig B C string ptr g).calls =
        (if B.PBI_XLD then [{ device := CfgDevice.XLD, answer := x.1 }] else []) ++
        (if !r1 && B.PBI_MIO then [{ device := CfgDevice.MIO, answer := m.1 }] else []) ++
        (if !r2 && B.PBI_BB then [{ device := CfgDevice.BB, answer := b.1 }] else []) ++
        (if !r3 && B.PBI_PROTO80 then
          [{ device := CfgDevice.PROTO80, answer := p.1 }] else []) ∧
      (PBI_ReadConfig B C string ptr g).g = (if !r3 && B.PBI_PROTO80 then p.2 else g3) ∧
      ((PBI_ReadConfig B C string ptr g).result = true ↔
        ∃ e ∈ (PBI_ReadConfig B C string ptr g).calls, e.answer ≠ 0) ∧
      (∀ e ∈ (PBI_ReadConfig B C string ptr g).calls.dropLast, e.answer = 0) ∧
      ((PBI_ReadConfig B C string ptr g).calls.map CfgCall.device <+: cfgPriority B) ∧
      ((PBI_ReadConfig B C string ptr g).result = false →
        (PBI_ReadConfig B C string ptr g).calls.map CfgCall.device = cfgPriority B ∧
          ∀ e ∈ (PBI_ReadConfig B C string ptr g).calls, e.answer = 0) := by
  intro x r1 g1 m r2 g2 b r3 g3 p
  have hr : PBI_ReadConfig B C string ptr g =
      { result := r3 || (B.PBI_PROTO80 && p.1 != 0)
        g := if !r3 && B.PBI_PROTO80 then p.2 else g3
        calls :=
          (if B.PBI_XLD then [{ device := CfgDevice.XLD, answer := x.1 }] else []) ++
          (if !r1 && B.PBI_MIO then [{ device := CfgDevice.MIO, answer := m.1 }] else []) ++
          (if !r2 && B.PBI_BB then [{ device := CfgDevice.BB, answer := b.1 }] else []) ++
          (if !r3 && B.PBI_PROTO80 then
            [{ device := CfgDevice.PROTO80, answer := p.1 }] else []) } := by
    unfold PBI_ReadConfig
    rw [cfgLink_first, cfgLink_mk, cfgLink_mk, cfgLink_mk]
  refine ⟨?_, ?_, ?_, PBI_ReadConfig_log B C string ptr g⟩
  · rw [hr]
    simp only [r3, r2, r1, Bool.or_eq_true, Bool.and_eq_true, bne_iff_ne, ne_eq, or_assoc]
  · rw [hr]
  · rw [hr]

/-- Witness of C17: the key `"MIO_ROM"`, which both MIO and BB recognise, is
claimed by MIO: the result is `TRUE`, XLD and MIO are consulted, BB and
PROTO80 are not. An unknown key is offered to all four and the result is
`FALSE`. -/
theorem readConfig_first_match_witness :
    (PBI_ReadConfig fullBuild keyHandlers "MIO_ROM" "x" globals0).result = true ∧
      (PBI_ReadConfig fullBuild keyHandlers "MIO_ROM" "x" globals0).calls =
        [{ device := CfgDevice.XLD, answer := 0 }, { device := CfgDevice.MIO, answer := 1 }] ∧
      (PBI_ReadConfig fullBuild keyHandlers "OTHER" "x" globals0).result = false ∧
      (PBI_ReadConfig fullBuild keyHandlers "OTHER" "x" globals0).calls.map CfgCall.device =
        [CfgDevice.XLD, CfgDevice.MIO, CfgDevice.BB, CfgDevice.PROTO80] :=
  ⟨(readConfig_first_match fullBuild keyHandlers "MIO_ROM" "x" globals0).1.2
      (Or.inr (Or.inl ⟨rfl, by decide⟩)),
    by decide, by decide, by decide⟩

/-! ## Idempotence and frame of D1 writes -/

theorem d1ffPut_twice (B : Build) (D : Devices δ) (v : Nat) (s : State δ) :
    d1ffPut B D v (d1ffPut B D v s).st = { st := (d1ffPut B D v s).st, calls := [] } := by
  by_cases h1 : s.D1FF_LATCH = v
  · have e : d1ffPut B D v s = { st := s, calls := [] } := by simp [d1ffPut, h1]
    rw [e]
    exact e
  · by_cases h2 : d1ffInvalid v = true
    · have e : d1ffPut B D v s = { st := s, calls := [] } := by simp [d1ffPut, h1, h2]
      rw [e]
      exact e
    · have hl : (d1ffPut B D v s).st.D1FF_LATCH = v := by
        unfold d1ffPut
        simp only [bne_iff_ne, ne_eq, h1, not_false_eq_true, if_true, h2, Bool.false_eq_true,
          if_false]
        split_ifs <;> rfl
      generalize d1ffPut B D v s = w at hl
      simp [d1ffPut, hl]

/-- C19: with no exclusive D1 device enabled (before the first write and
after it), for every byte `v`, legal or not, the second of two successive
writes of `v` to `0xD1FF` returns the state the first one produced (latch,
ROM-shadow flag, memory and everything else) and invokes no device entry
point. -/
theorem latch_write_idempotent (B : Build) (D : Devices δ) (s : State δ) (v : Nat)
    (hx : noExclusiveD1 B D s) (hx2 : noExclusiveD1 B D (PBI_D1PutByte B D 0xd1ff v s).st)
    (hv : v < 256) :
    PBI_D1PutByte B D 0xd1ff v (PBI_D1PutByte B D 0xd1ff v s).st =
      { st := (PBI_D1PutByte B D 0xd1ff v s).st, calls := [] } := by
  rw [PBI_D1PutByte_d1ff B D _ v hx2 hv, PBI_D1PutByte_d1ff B D s v hx hv]
  exact d1ffPut_twice B D v s

/-- Witness of C19: the handled bank-select of 4 written twice; the second
write changes nothing and calls nothing. -/
theorem latch_write_idempotent_witness :
    PBI_D1PutByte fullBuild bankDevices 0xd1ff 4
        (PBI_D1PutByte fullBuild bankDevices 0xd1ff 4 state0).st =
      { st := (PBI_D1PutByte fullBuild bankDevices 0xd1ff 4 state0).st, calls := [] } :=
  latch_write_idempotent fullBuild bankDevices state0 4 ⟨rfl, rfl⟩ ⟨rfl, rfl⟩ (by decide)

end PBI
